import Mathlib

/-!
Verification of the event-to-row mapping and bulk-insert SQL generation of
`db.go` (iand/tracecatcher).

The Go source is shallowly embedded:

* `buildBulkInsert` and `buildBulkInsertParentChild` (db.go lines 803-887)
  are string builders; their `for` loops with the running parameter index
  `idx` are embedded as structurally recursive helpers that carry `idx`
  and the accumulated string exactly as the Go loops do.
* Each event type's `BatchInsert` closure (the `eventDefs` map literal,
  db.go lines 82-794) is embedded as a row-extraction function over a
  `TraceEvent` record plus a fold over the input slice.  A queued
  statement is a `(sql, values)` pair; a `pgx.Batch` is the list of
  queued statements in queue order.
* `peer.IDFromBytes` (libp2p) and `base64.StdEncoding.DecodeString` are
  external library functions; they are abstracted as the two fields of a
  `Decoders` record, supplied as an argument.  Every use of a decoded
  `peer.ID` in db.go immediately calls `.String()`, so the abstraction
  maps raw bytes directly to the canonical string.
* `ensureDatabaseSchema` (db.go lines 41-72) performs transactional I/O;
  it is embedded against an abstract connection model `DbModel` that
  says which operations fail, and the embedding returns both the Go
  function's result and the trace of operations performed on the
  connection.

Byte slices (`[]byte`, `peer.ID` raw bytes) are modelled as `List Nat`.
Values placed into the `values []any` slice are modelled by the `Val`
inductive; `float64` fields are never computed with — only copied — so
their payload is carried as an opaque `Nat` bit pattern.
-/

/-- A scalar value appended to the `values []any` slice of a batch entry.
`time` models `time.Unix(0, ns)`; `dur` models a `time.Duration`;
`float` carries the (opaque, copied-verbatim) payload of a `float64`. -/
inductive Val where
  | str (s : String)
  | time (ns : Int)
  | dur (ns : Int)
  | float (bits : Nat)
  deriving DecidableEq, Repr

/-- Raw bytes, e.g. an undecoded peer identifier. -/
abbrev Bytes := List Nat

/-- A queued statement: the SQL text and the parameter values, in order. -/
abbrev Stmt := String × List Val

/-- A `pgx.Batch`: queued statements in queue order. -/
abbrev Batch := List Stmt

/-- The external decoding functions used by db.go:
`decode` models `peer.IDFromBytes` composed with `peer.ID.String()`
(returning `none` when `IDFromBytes` errors), and `b64` models
`base64.StdEncoding.DecodeString` (returning `none` on error). -/
structure Decoders where
  decode : Bytes → Option String
  b64 : Bytes → Option Bytes

/-- Modelled from the spec (section 3): the event type tag.  The tag type
itself is declared outside src/; the eleven variants are those registered
in the `eventDefs` map of db.go. -/
inductive EventType where
  | publishMessage
  | rejectMessage
  | duplicateMessage
  | deliverMessage
  | addPeer
  | removePeer
  | join
  | leave
  | graft
  | prune
  | peerScore
  deriving DecidableEq, Repr

/-- Modelled from the spec (section 3): each event type has a stable string
key (`EventType.Key()` in the Go source, declared outside src/); it is used
only in log and error messages. -/
def EventType.key : EventType → String
  | .publishMessage => "publish_message"
  | .rejectMessage => "reject_message"
  | .duplicateMessage => "duplicate_message"
  | .deliverMessage => "deliver_message"
  | .addPeer => "add_peer"
  | .removePeer => "remove_peer"
  | .join => "join"
  | .leave => "leave"
  | .graft => "graft"
  | .prune => "prune"
  | .peerScore => "peer_score"

/-- Modelled from the spec (section 3): the `PublishMessage` sub-payload
with `MessageID` and optional `Topic`. -/
structure PublishMessagePayload where
  messageID : String
  topic : Option String
  deriving DecidableEq, Repr

/-- Modelled from the spec (section 3): the `RejectMessage` sub-payload. -/
structure RejectMessagePayload where
  messageID : String
  topic : Option String
  receivedFrom : Bytes
  reason : Option String
  deriving DecidableEq, Repr

/-- Modelled from the spec (section 3): the `DuplicateMessage` sub-payload. -/
structure DuplicateMessagePayload where
  messageID : String
  topic : Option String
  receivedFrom : Bytes
  deriving DecidableEq, Repr

/-- Modelled from the spec (section 3): the `DeliverMessage` sub-payload. -/
structure DeliverMessagePayload where
  messageID : String
  topic : Option String
  receivedFrom : Bytes
  deriving DecidableEq, Repr

/-- Modelled from the spec (section 3): the `AddPeer` sub-payload; its
`PeerID` field is the other peer's raw identifier bytes. -/
structure AddPeerPayload where
  peerID : Bytes
  proto : Option String
  deriving DecidableEq, Repr

/-- Modelled from the spec (section 3): the `RemovePeer` sub-payload. -/
structure RemovePeerPayload where
  peerID : Bytes
  deriving DecidableEq, Repr

/-- Modelled from the spec (section 3): the `Join` sub-payload. -/
structure JoinPayload where
  topic : Option String
  deriving DecidableEq, Repr

/-- Modelled from the spec (section 3): the `Leave` sub-payload. -/
structure LeavePayload where
  topic : Option String
  deriving DecidableEq, Repr

/-- Modelled from the spec (section 3): the `Graft` sub-payload. -/
structure GraftPayload where
  topic : Option String
  peerID : Bytes
  deriving DecidableEq, Repr

/-- Modelled from the spec (section 3): the `Prune` sub-payload. -/
structure PrunePayload where
  topic : Option String
  peerID : Bytes
  deriving DecidableEq, Repr

/-- Modelled from the spec (section 3): one `TopicScore` entry of a
`PeerScore` payload.  `timeInMesh` is a duration; the three delivery
scores are `float64` fields, carried as opaque bit patterns because
db.go only copies them into the values slice. -/
structure TopicScore where
  topic : String
  timeInMesh : Int
  firstMessageDeliveries : Nat
  meshMessageDeliveries : Nat
  invalidMessageDeliveries : Nat
  deriving DecidableEq, Repr

/-- Modelled from the spec (section 3): the `PeerScore` sub-payload; its
`PeerID` field is the scored (other) peer's raw identifier bytes. -/
structure PeerScorePayload where
  peerID : Bytes
  appSpecificScore : Nat
  ipColocationFactor : Nat
  behaviourPenalty : Nat
  topics : List TopicScore
  deriving DecidableEq, Repr

/-- Modelled from the spec (section 3): the `TraceEvent` envelope (declared
outside src/): raw `PeerID` bytes, optional `Timestamp` in epoch
nanoseconds, the declared `Type` tag, and one optional field per
sub-payload (db.go dereferences `ev.PublishMessage`, `ev.PeerScore`, ...,
each of which is a nullable pointer). -/
structure TraceEvent where
  peerID : Bytes
  timestamp : Option Int
  type : EventType
  publishMessage : Option PublishMessagePayload := none
  rejectMessage : Option RejectMessagePayload := none
  duplicateMessage : Option DuplicateMessagePayload := none
  deliverMessage : Option DeliverMessagePayload := none
  addPeer : Option AddPeerPayload := none
  removePeer : Option RemovePeerPayload := none
  join : Option JoinPayload := none
  leave : Option LeavePayload := none
  graft : Option GraftPayload := none
  prune : Option PrunePayload := none
  peerScore : Option PeerScorePayload := none
  deriving Repr

/-- db.go lines 796-801: `derefString` returns the pointed-to string or the
default when the pointer is nil. -/
def derefString (s : Option String) (def_ : String) : String :=
  match s with
  | none => def_
  | some v => v

/-- Concatenation of a list of strings (used by the spec-side closed
forms below). -/
def strJoin : List String → String
  | [] => ""
  | x :: xs => x ++ strJoin xs

/-- Separator-joined concatenation: the separator precedes every element
except the first (the shape produced by a `if i > 0 then write(sep)` loop). -/
def sepJoin (sep : String) : List String → String
  | [] => ""
  | x :: xs => x ++ strJoin (xs.map (fun y => sep ++ y))

/-- A positional parameter placeholder `$i`. -/
def phStr (i : Nat) : String := "$" ++ toString i

/-- db.go lines 812-819: the inner column loop of `buildBulkInsert`.
`idx` is the running parameter counter, `c` the loop variable (only its
positivity is tested, for the separator), and the `Nat` argument is the
number of remaining iterations.  Each iteration writes `", "` when
`c > 0`, increments `idx`, and writes `"$" ++ itoa idx`. -/
def bbiColsAux (idx : Nat) (c : Nat) : Nat → String → Nat × String
  | 0, acc => (idx, acc)
  | rem + 1, acc =>
    let acc := if c > 0 then acc ++ ", " else acc
    let idx := idx + 1
    let acc := acc ++ "$" ++ toString idx
    bbiColsAux idx (c + 1) rem acc

/-- db.go lines 807-821: the outer row loop of `buildBulkInsert`.  Each
iteration writes `","` when `r > 0`, then `"("`, the column loop, `")"`. -/
def bbiRowsAux (k : Nat) (idx : Nat) (r : Nat) : Nat → String → String
  | 0, acc => acc
  | rem + 1, acc =>
    let acc := if r > 0 then acc ++ "," else acc
    let acc := acc ++ "("
    let p := bbiColsAux idx 0 k acc
    let acc := p.2 ++ ")"
    bbiRowsAux k p.1 (r + 1) rem acc

/-- db.go lines 803-823: `buildBulkInsert` emits
`INSERT INTO table(col1, ..., colK) VALUES ` followed by `rowCount`
comma-separated parenthesised tuples of sequentially numbered
placeholders. -/
def buildBulkInsert (table : String) (columns : List String) (rowCount : Nat) : String :=
  bbiRowsAux columns.length 0 0 rowCount
    ("INSERT INTO " ++ table ++ "(" ++ String.intercalate ", " columns ++ ") VALUES ")

/-- db.go lines 878-883: the child column loop of
`buildBulkInsertParentChild`: `for c := 1; c < len(childColumns); c++`
increments `idx` then writes `","`, `"$"`, `itoa idx`.  The `Nat`
argument is the number of remaining iterations. -/
def pcColsAux (idx : Nat) : Nat → String → Nat × String
  | 0, acc => (idx, acc)
  | rem + 1, acc => pcColsAux (idx + 1) rem (acc ++ "," ++ "$" ++ toString (idx + 1))

/-- db.go lines 870-885: the child row loop of
`buildBulkInsertParentChild`.  Each row writes `","` when `r > 0`, then
`"("`, the parent-id sub-query `(select id from new_<parentTable>)`,
the remaining `len(childColumns) - 1` placeholders, and `")"`. -/
def pcRowsAux (parentTable : String) (childK : Nat) (idx : Nat) (r : Nat) :
    Nat → String → String
  | 0, acc => acc
  | rem + 1, acc =>
    let acc := if r > 0 then acc ++ "," else acc
    let acc := acc ++ "(" ++ "(select id from new_" ++ parentTable ++ ")"
    let p := pcColsAux idx (childK - 1) acc
    let acc := p.2 ++ ")"
    pcRowsAux parentTable childK p.1 (r + 1) rem acc

/-- db.go lines 825-887: `buildBulkInsertParentChild`.  With
`childRowCount == 0` it degrades to a one-row flat insert into the parent
table (lines 844-846).  Otherwise it emits a CTE
`WITH new_<parentTable> AS (INSERT ... VALUES (...) RETURNING id) ` whose
parent tuple uses the same column-loop shape as `buildBulkInsert`
(lines 857-865), followed by the child insert whose every row starts with
the parent-id sub-query. -/
def buildBulkInsertParentChild (parentTable : String) (parentColumns : List String)
    (childTable : String) (childColumns : List String) (childRowCount : Nat) : String :=
  if childRowCount = 0 then
    buildBulkInsert parentTable parentColumns 1
  else
    let acc := "WITH new_" ++ parentTable ++ " AS (" ++
      "INSERT INTO " ++ parentTable ++ "(" ++ String.intercalate ", " parentColumns ++
      ") VALUES " ++ "("
    let p := bbiColsAux 0 0 parentColumns.length acc
    let acc := p.2 ++ ") RETURNING id) " ++
      "INSERT INTO " ++ childTable ++ "(" ++ String.intercalate ", " childColumns ++
      ") VALUES "
    pcRowsAux parentTable childColumns.length p.1 0 childRowCount acc

/-- Spec-side closed form: the tuple of a flat insert's row whose first
placeholder is `$(base+1)`, for `k` columns. -/
def flatTupleSpec (k : Nat) (base : Nat) : String :=
  "(" ++ sepJoin ", " ((List.range k).map (fun c => phStr (base + c + 1))) ++ ")"

/-- Spec-side closed form of `BuildFlatInsert` (spec section 4.4): exactly
`rowCount` value tuples, placeholders numbered `$1 .. $(rowCount*k)`
sequentially in row-major order. -/
def flatInsertSpec (table : String) (columns : List String) (rowCount : Nat) : String :=
  "INSERT INTO " ++ table ++ "(" ++ String.intercalate ", " columns ++ ") VALUES " ++
  sepJoin "," ((List.range rowCount).map
    (fun r => flatTupleSpec columns.length (r * columns.length)))

/-- Spec-side closed form: one child row of the parent-child insert — the
first column is the sub-query selecting the captured parent id (not a
positional parameter), the remaining `childK - 1` columns are placeholders
continuing at `$(base+1)`. -/
def pcChildTupleSpec (parentTable : String) (childK : Nat) (base : Nat) : String :=
  "(" ++ "(select id from new_" ++ parentTable ++ ")" ++
  strJoin ((List.range (childK - 1)).map (fun j => "," ++ "$" ++ toString (base + j + 1))) ++ ")"

/-- Spec-side closed form of `BuildParentChildInsert` (spec section 4.4)
for `childRowCount = n > 0`: one parent tuple with placeholders
`$1 .. $P` captured under the named intermediate result
`new_<parentTable>` via `RETURNING id`, then `n` child tuples whose
first column is the parent-id sub-query and whose remaining `C - 1`
placeholders continue the numbering at `$(P + r*(C-1) + 1)` for row `r`. -/
def parentChildInsertSpec (parentTable : String) (parentColumns : List String)
    (childTable : String) (childColumns : List String) (n : Nat) : String :=
  "WITH new_" ++ parentTable ++ " AS (" ++
  "INSERT INTO " ++ parentTable ++ "(" ++ String.intercalate ", " parentColumns ++
  ") VALUES " ++ "(" ++
  sepJoin ", " ((List.range parentColumns.length).map (fun c => phStr (c + 1))) ++
  ") RETURNING id) " ++
  "INSERT INTO " ++ childTable ++ "(" ++ String.intercalate ", " childColumns ++
  ") VALUES " ++
  sepJoin "," ((List.range n).map (fun r =>
    pcChildTupleSpec parentTable childColumns.length
      (parentColumns.length + r * (childColumns.length - 1))))

/-- db.go: the loop shape shared by every flat-kind `BatchInsert` closure
(e.g. lines 105-129 for publish_message): iterate the input slice, skip an
event when its row extraction fails (missing timestamp, unset payload,
undecodable identifier — each `continue` in the Go loop), otherwise append
the extracted column tuple to `values` and increment `rowCount`. -/
def flatLoop (row : TraceEvent → Option (List Val)) :
    List TraceEvent → List Val → Nat → List Val × Nat
  | [], values, rowCount => (values, rowCount)
  | ev :: evs, values, rowCount =>
    match row ev with
    | none => flatLoop row evs values rowCount
    | some tuple => flatLoop row evs (values ++ tuple) (rowCount + 1)

/-- db.go lines 107-128: the per-event body of the publish_message loop:
skip on missing timestamp, on nil `ev.PublishMessage`, on undecodable
`ev.PeerID`; otherwise the tuple is
`(peerID.String(), time.Unix(0, ts), string(sub.MessageID), derefString(sub.Topic, ""))`. -/
def publishMessageRow (dec : Decoders) (ev : TraceEvent) : Option (List Val) :=
  match ev.timestamp with
  | none => none
  | some ts =>
  match ev.publishMessage with
  | none => none
  | some sub =>
  match dec.decode ev.peerID with
  | none => none
  | some peerID =>
  some [Val.str peerID, Val.time ts, Val.str sub.messageID, Val.str (derefString sub.topic "")]

def publishMessageCols : List String := ["peer_id", "timestamp", "message_id", "topic"]

/-- db.go lines 99-134: `eventDefs[EventTypePublishMessage].BatchInsert`. -/
def publishMessageBatchInsert (dec : Decoders) (evs : List TraceEvent) : Batch :=
  let p := flatLoop (publishMessageRow dec) evs [] 0
  [(buildBulkInsert "publish_message_event" publishMessageCols p.2, p.1)]

/-- db.go lines 164-194: the per-event body of the reject_message loop. -/
def rejectMessageRow (dec : Decoders) (ev : TraceEvent) : Option (List Val) :=
  match ev.timestamp with
  | none => none
  | some ts =>
  match ev.rejectMessage with
  | none => none
  | some sub =>
  match dec.decode ev.peerID with
  | none => none
  | some peerID =>
  match dec.decode sub.receivedFrom with
  | none => none
  | some receivedFromPeerID =>
  some [Val.str peerID, Val.time ts, Val.str sub.messageID, Val.str (derefString sub.topic ""),
    Val.str receivedFromPeerID, Val.str (derefString sub.reason "")]

def rejectMessageCols : List String :=
  ["peer_id", "timestamp", "message_id", "topic", "received_from", "reason"]

/-- db.go lines 156-199: `eventDefs[EventTypeRejectMessage].BatchInsert`. -/
def rejectMessageBatchInsert (dec : Decoders) (evs : List TraceEvent) : Batch :=
  let p := flatLoop (rejectMessageRow dec) evs [] 0
  [(buildBulkInsert "reject_message_event" rejectMessageCols p.2, p.1)]

/-- db.go lines 228-257: the per-event body of the duplicate_message loop. -/
def duplicateMessageRow (dec : Decoders) (ev : TraceEvent) : Option (List Val) :=
  match ev.timestamp with
  | none => none
  | some ts =>
  match ev.duplicateMessage with
  | none => none
  | some sub =>
  match dec.decode ev.peerID with
  | none => none
  | some peerID =>
  match dec.decode sub.receivedFrom with
  | none => none
  | some receivedFromPeerID =>
  some [Val.str peerID, Val.time ts, Val.str sub.messageID, Val.str (derefString sub.topic ""),
    Val.str receivedFromPeerID]

def duplicateMessageCols : List String :=
  ["peer_id", "timestamp", "message_id", "topic", "received_from"]

/-- db.go lines 220-262: `eventDefs[EventTypeDuplicateMessage].BatchInsert`. -/
def duplicateMessageBatchInsert (dec : Decoders) (evs : List TraceEvent) : Batch :=
  let p := flatLoop (duplicateMessageRow dec) evs [] 0
  [(buildBulkInsert "duplicate_message_event" duplicateMessageCols p.2, p.1)]

/-- db.go lines 291-320: the per-event body of the deliver_message loop. -/
def deliverMessageRow (dec : Decoders) (ev : TraceEvent) : Option (List Val) :=
  match ev.timestamp with
  | none => none
  | some ts =>
  match ev.deliverMessage with
  | none => none
  | some sub =>
  match dec.decode ev.peerID with
  | none => none
  | some peerID =>
  match dec.decode sub.receivedFrom with
  | none => none
  | some receivedFromPeerID =>
  some [Val.str peerID, Val.time ts, Val.str sub.messageID, Val.str (derefString sub.topic ""),
    Val.str receivedFromPeerID]

def deliverMessageCols : List String :=
  ["peer_id", "timestamp", "message_id", "topic", "received_from"]

/-- db.go lines 283-325: `eventDefs[EventTypeDeliverMessage].BatchInsert`. -/
def deliverMessageBatchInsert (dec : Decoders) (evs : List TraceEvent) : Batch :=
  let p := flatLoop (deliverMessageRow dec) evs [] 0
  [(buildBulkInsert "deliver_message_event" deliverMessageCols p.2, p.1)]

/-- db.go lines 352-380: the per-event body of the add_peer loop. -/
def addPeerRow (dec : Decoders) (ev : TraceEvent) : Option (List Val) :=
  match ev.timestamp with
  | none => none
  | some ts =>
  match ev.addPeer with
  | none => none
  | some sub =>
  match dec.decode ev.peerID with
  | none => none
  | some peerID =>
  match dec.decode sub.peerID with
  | none => none
  | some otherPeerID =>
  some [Val.str peerID, Val.time ts, Val.str otherPeerID, Val.str (derefString sub.proto "")]

def addPeerCols : List String := ["peer_id", "timestamp", "other_peer_id", "proto"]

/-- db.go lines 344-385: `eventDefs[EventTypeAddPeer].BatchInsert`. -/
def addPeerBatchInsert (dec : Decoders) (evs : List TraceEvent) : Batch :=
  let p := flatLoop (addPeerRow dec) evs [] 0
  [(buildBulkInsert "add_peer_event" addPeerCols p.2, p.1)]

/-- db.go lines 411-438: the per-event body of the remove_peer loop. -/
def removePeerRow (dec : Decoders) (ev : TraceEvent) : Option (List Val) :=
  match ev.timestamp with
  | none => none
  | some ts =>
  match ev.removePeer with
  | none => none
  | some sub =>
  match dec.decode ev.peerID with
  | none => none
  | some peerID =>
  match dec.decode sub.peerID with
  | none => none
  | some otherPeerID =>
  some [Val.str peerID, Val.time ts, Val.str otherPeerID]

def removePeerCols : List String := ["peer_id", "timestamp", "other_peer_id"]

/-- db.go lines 403-443: `eventDefs[EventTypeRemovePeer].BatchInsert`. -/
def removePeerBatchInsert (dec : Decoders) (evs : List TraceEvent) : Batch :=
  let p := flatLoop (removePeerRow dec) evs [] 0
  [(buildBulkInsert "remove_peer_event" removePeerCols p.2, p.1)]

/-- db.go lines 470-491: the per-event body of the join loop. -/
def joinRow (dec : Decoders) (ev : TraceEvent) : Option (List Val) :=
  match ev.timestamp with
  | none => none
  | some ts =>
  match ev.join with
  | none => none
  | some sub =>
  match dec.decode ev.peerID with
  | none => none
  | some peerID =>
  some [Val.str peerID, Val.time ts, Val.str (derefString sub.topic "")]

def joinCols : List String := ["peer_id", "timestamp", "topic"]

/-- db.go lines 462-496: `eventDefs[EventTypeJoin].BatchInsert`. -/
def joinBatchInsert (dec : Decoders) (evs : List TraceEvent) : Batch :=
  let p := flatLoop (joinRow dec) evs [] 0
  [(buildBulkInsert "join_event" joinCols p.2, p.1)]

/-- db.go lines 522-543: the per-event body of the leave loop. -/
def leaveRow (dec : Decoders) (ev : TraceEvent) : Option (List Val) :=
  match ev.timestamp with
  | none => none
  | some ts =>
  match ev.leave with
  | none => none
  | some sub =>
  match dec.decode ev.peerID with
  | none => none
  | some peerID =>
  some [Val.str peerID, Val.time ts, Val.str (derefString sub.topic "")]

def leaveCols : List String := ["peer_id", "timestamp", "topic"]

/-- db.go lines 514-548: `eventDefs[EventTypeLeave].BatchInsert`. -/
def leaveBatchInsert (dec : Decoders) (evs : List TraceEvent) : Batch :=
  let p := flatLoop (leaveRow dec) evs [] 0
  [(buildBulkInsert "leave_event" leaveCols p.2, p.1)]

/-- db.go lines 577-607: the per-event body of the graft loop. -/
def graftRow (dec : Decoders) (ev : TraceEvent) : Option (List Val) :=
  match ev.timestamp with
  | none => none
  | some ts =>
  match ev.graft with
  | none => none
  | some sub =>
  match dec.decode ev.peerID with
  | none => none
  | some peerID =>
  match dec.decode sub.peerID with
  | none => none
  | some otherPeerID =>
  some [Val.str peerID, Val.time ts, Val.str (derefString sub.topic ""), Val.str otherPeerID]

def graftCols : List String := ["peer_id", "timestamp", "topic", "other_peer_id"]

/-- db.go lines 569-612: `eventDefs[EventTypeGraft].BatchInsert`. -/
def graftBatchInsert (dec : Decoders) (evs : List TraceEvent) : Batch :=
  let p := flatLoop (graftRow dec) evs [] 0
  [(buildBulkInsert "graft_event" graftCols p.2, p.1)]

/-- db.go lines 641-671: the per-event body of the prune loop. -/
def pruneRow (dec : Decoders) (ev : TraceEvent) : Option (List Val) :=
  match ev.timestamp with
  | none => none
  | some ts =>
  match ev.prune with
  | none => none
  | some sub =>
  match dec.decode ev.peerID with
  | none => none
  | some peerID =>
  match dec.decode sub.peerID with
  | none => none
  | some otherPeerID =>
  some [Val.str peerID, Val.time ts, Val.str (derefString sub.topic ""), Val.str otherPeerID]

def pruneCols : List String := ["peer_id", "timestamp", "topic", "other_peer_id"]

/-- db.go lines 633-676: `eventDefs[EventTypePrune].BatchInsert`. -/
def pruneBatchInsert (dec : Decoders) (evs : List TraceEvent) : Batch :=
  let p := flatLoop (pruneRow dec) evs [] 0
  [(buildBulkInsert "prune_event" pruneCols p.2, p.1)]

def peerScoreParentCols : List String :=
  ["peer_id", "timestamp", "other_peer_id", "app_specific_score", "ip_colocation_factor",
    "behaviour_penalty"]

def peerScoreChildCols : List String :=
  ["peer_score_event_id", "topic", "time_in_mesh", "first_message_deliveries",
    "mesh_message_deliveries", "invalid_message_deliveries"]

/-- db.go lines 730-760: the two identifier-decoding blocks of the
peer_score loop, returning the pair
`(peerID.String(), otherPeerID.String())` actually used for the parent
tuple, or `none` when the event is skipped.

First block (lines 732-745, envelope `ev.PeerID`): on direct decode
failure, base64-decode the raw bytes and retry; both failures skip.

Second block (lines 747-760, `sub.PeerID`): on direct decode failure the
Go code base64-decodes and retries, but assigns the retried result to
`peerID` (not `otherPeerID`); `otherPeerID` is then still the zero
`peer.ID`, whose `.String()` (base58 of zero bytes) is the empty string.
The model reproduces exactly that assignment. -/
def peerScoreIds (dec : Decoders) (envRaw otherRaw : Bytes) : Option (String × String) :=
  let step1 : Option String :=
    match dec.decode envRaw with
    | some peerID => some peerID
    | none =>
      match dec.b64 envRaw with
      | none => none
      | some decoded => dec.decode decoded
  match step1 with
  | none => none
  | some peerID =>
    match dec.decode otherRaw with
    | some otherPeerID => some (peerID, otherPeerID)
    | none =>
      match dec.b64 otherRaw with
      | none => none
      | some decoded =>
        match dec.decode decoded with
        | none => none
        | some peerID2 => some (peerID2, "")

/-- db.go lines 775-785: the child-value loop of the peer_score mapper:
one `(topic, time_in_mesh, deliveries...)` tuple appended per
`TopicScore` entry, counting `childRowCount`. -/
def peerScoreChildLoop : List TopicScore → List Val → Nat → List Val × Nat
  | [], values, childRowCount => (values, childRowCount)
  | t :: ts, values, childRowCount =>
    peerScoreChildLoop ts
      (values ++ [Val.str t.topic, Val.dur t.timeInMesh, Val.float t.firstMessageDeliveries,
        Val.float t.meshMessageDeliveries, Val.float t.invalidMessageDeliveries])
      (childRowCount + 1)

/-- db.go lines 719-788: the per-event body of the peer_score loop: skip
(`none`) on missing timestamp, nil payload or failed identifier decoding;
otherwise build the one independent parent-child statement for this
event, its values being the six parent values followed by the child
values. -/
def peerScoreEventStmt (dec : Decoders) (ev : TraceEvent) : Option Stmt :=
  match ev.timestamp with
  | none => none
  | some ts =>
  match ev.peerScore with
  | none => none
  | some sub =>
  match peerScoreIds dec ev.peerID sub.peerID with
  | none => none
  | some ids =>
    let parentVals := [Val.str ids.1, Val.time ts, Val.str ids.2,
      Val.float sub.appSpecificScore, Val.float sub.ipColocationFactor,
      Val.float sub.behaviourPenalty]
    let p := peerScoreChildLoop sub.topics parentVals 0
    let sql := buildBulkInsertParentChild "peer_score_event" peerScoreParentCols
      "peer_score_topic" peerScoreChildCols p.2
    some (sql, p.1)

/-- db.go lines 719-790: the event loop of the peer_score mapper: each
surviving event's statement is queued; skipped events queue nothing. -/
def peerScoreBatchLoop (dec : Decoders) : List TraceEvent → Batch → Batch
  | [], b => b
  | ev :: evs, b =>
    match peerScoreEventStmt dec ev with
    | none => peerScoreBatchLoop dec evs b
    | some st => peerScoreBatchLoop dec evs (b ++ [st])

/-- db.go lines 711-792: `eventDefs[EventTypePeerScore].BatchInsert`. -/
def peerScoreBatchInsert (dec : Decoders) (evs : List TraceEvent) : Batch :=
  peerScoreBatchLoop dec evs []

/-- db.go: the DDL registered for table `publish_message_event`. -/
def publishMessageEventDDL : String := r#"
			CREATE TABLE IF NOT EXISTS publish_message_event (
			    id               INT         GENERATED ALWAYS AS IDENTITY,
				peer_id          TEXT        NOT NULL,
				timestamp        TIMESTAMPTZ NOT NULL,
				message_id       TEXT        NOT NULL,
				topic            TEXT        NOT NULL,
			    PRIMARY KEY (id)
			);

			CREATE INDEX IF NOT EXISTS idx_publish_message_event_timestamp ON publish_message_event (timestamp);
			CREATE INDEX IF NOT EXISTS idx_publish_message_event_peer_id   ON publish_message_event (peer_id);
			CREATE INDEX IF NOT EXISTS idx_publish_message_event_topic     ON publish_message_event USING hash (topic);
		"#

/-- db.go: the DDL registered for table `reject_message_event`. -/
def rejectMessageEventDDL : String := r#"
			CREATE TABLE IF NOT EXISTS reject_message_event (
			    id               INT         GENERATED ALWAYS AS IDENTITY,
				peer_id          TEXT        NOT NULL,
				timestamp        TIMESTAMPTZ NOT NULL,
				message_id       TEXT        NOT NULL,
				topic            TEXT        NOT NULL,
				received_from    TEXT        NOT NULL,
				reason           TEXT        NOT NULL,
			    PRIMARY KEY (id)
			);

			CREATE INDEX IF NOT EXISTS idx_reject_message_event_timestamp       ON reject_message_event (timestamp);
			CREATE INDEX IF NOT EXISTS idx_reject_message_event_peer_id         ON reject_message_event (peer_id);
			CREATE INDEX IF NOT EXISTS idx_reject_message_event_topic           ON reject_message_event USING hash (topic);
			CREATE INDEX IF NOT EXISTS idx_reject_message_event_received_from   ON reject_message_event (received_from);
		"#

/-- db.go: the DDL registered for table `duplicate_message_event`. -/
def duplicateMessageEventDDL : String := r#"
			CREATE TABLE IF NOT EXISTS duplicate_message_event (
			    id               INT         GENERATED ALWAYS AS IDENTITY,
				peer_id          TEXT        NOT NULL,
				timestamp        TIMESTAMPTZ NOT NULL,
				message_id       TEXT        NOT NULL,
				topic            TEXT        NOT NULL,
				received_from    TEXT        NOT NULL,
			    PRIMARY KEY (id)
			);

			CREATE INDEX IF NOT EXISTS idx_duplicate_message_event_timestamp       ON duplicate_message_event (timestamp);
			CREATE INDEX IF NOT EXISTS idx_duplicate_message_event_peer_id         ON duplicate_message_event (peer_id);
			CREATE INDEX IF NOT EXISTS idx_duplicate_message_event_topic           ON duplicate_message_event USING hash (topic);
			CREATE INDEX IF NOT EXISTS idx_duplicate_message_event_received_from   ON duplicate_message_event (received_from);
		"#

/-- db.go: the DDL registered for table `deliver_message_event`. -/
def deliverMessageEventDDL : String := r#"
			CREATE TABLE IF NOT EXISTS deliver_message_event (
			    id               INT         GENERATED ALWAYS AS IDENTITY,
				peer_id          TEXT        NOT NULL,
				timestamp        TIMESTAMPTZ NOT NULL,
				message_id       TEXT        NOT NULL,
				topic            TEXT        NOT NULL,
				received_from    TEXT        NOT NULL,
			    PRIMARY KEY (id)
			);

			CREATE INDEX IF NOT EXISTS idx_deliver_message_event_timestamp       ON deliver_message_event (timestamp);
			CREATE INDEX IF NOT EXISTS idx_deliver_message_event_peer_id         ON deliver_message_event (peer_id);
			CREATE INDEX IF NOT EXISTS idx_deliver_message_event_topic           ON deliver_message_event USING hash (topic);
			CREATE INDEX IF NOT EXISTS idx_deliver_message_event_received_from   ON deliver_message_event (received_from);
		"#

/-- db.go: the DDL registered for table `add_peer_event`. -/
def addPeerEventDDL : String := r#"
			CREATE TABLE IF NOT EXISTS add_peer_event (
			    id               INT         GENERATED ALWAYS AS IDENTITY,
				peer_id          TEXT        NOT NULL,
				timestamp        TIMESTAMPTZ NOT NULL,
				other_peer_id    TEXT        NOT NULL,
				proto            TEXT        NOT NULL,
			    PRIMARY KEY (id)
			);

			CREATE INDEX IF NOT EXISTS idx_add_peer_event_timestamp       ON add_peer_event (timestamp);
			CREATE INDEX IF NOT EXISTS idx_add_peer_event_peer_id         ON add_peer_event (peer_id);
			CREATE INDEX IF NOT EXISTS idx_add_peer_event_other_peer_id   ON add_peer_event (other_peer_id);
		"#

/-- db.go: the DDL registered for table `remove_peer_event`. -/
def removePeerEventDDL : String := r#"
			CREATE TABLE IF NOT EXISTS remove_peer_event (
			    id               INT         GENERATED ALWAYS AS IDENTITY,
				peer_id          TEXT        NOT NULL,
				timestamp        TIMESTAMPTZ NOT NULL,
				other_peer_id    TEXT        NOT NULL,
			    PRIMARY KEY (id)
			);

			CREATE INDEX IF NOT EXISTS idx_remove_peer_event_timestamp       ON remove_peer_event (timestamp);
			CREATE INDEX IF NOT EXISTS idx_remove_peer_event_peer_id         ON remove_peer_event (peer_id);
			CREATE INDEX IF NOT EXISTS idx_remove_peer_event_other_peer_id   ON remove_peer_event (other_peer_id);
		"#

/-- db.go: the DDL registered for table `join_event`. -/
def joinEventDDL : String := r#"
			CREATE TABLE IF NOT EXISTS join_event (
			    id               INT         GENERATED ALWAYS AS IDENTITY,
				peer_id          TEXT        NOT NULL,
				timestamp        TIMESTAMPTZ NOT NULL,
				topic            TEXT        NOT NULL,
			    PRIMARY KEY (id)
			);

			CREATE INDEX IF NOT EXISTS idx_join_event_timestamp  ON join_event (timestamp);
			CREATE INDEX IF NOT EXISTS idx_join_event_peer_id    ON join_event (peer_id);
			CREATE INDEX IF NOT EXISTS idx_join_event_topic      ON join_event USING hash (topic);
		"#

/-- db.go: the DDL registered for table `leave_event`. -/
def leaveEventDDL : String := r#"
			CREATE TABLE IF NOT EXISTS leave_event (
			    id               INT         GENERATED ALWAYS AS IDENTITY,
				peer_id          TEXT        NOT NULL,
				timestamp        TIMESTAMPTZ NOT NULL,
				topic            TEXT        NOT NULL,
			    PRIMARY KEY (id)
			);

			CREATE INDEX IF NOT EXISTS idx_leave_event_timestamp  ON leave_event (timestamp);
			CREATE INDEX IF NOT EXISTS idx_leave_event_peer_id    ON leave_event (peer_id);
			CREATE INDEX IF NOT EXISTS idx_leave_event_topic      ON leave_event USING hash (topic);
		"#

/-- db.go: the DDL registered for table `graft_event`. -/
def graftEventDDL : String := r#"
			CREATE TABLE IF NOT EXISTS graft_event (
			    id               INT         GENERATED ALWAYS AS IDENTITY,
				peer_id          TEXT        NOT NULL,
				timestamp        TIMESTAMPTZ NOT NULL,
				topic            TEXT        NOT NULL,
				other_peer_id    TEXT        NOT NULL,
			    PRIMARY KEY (id)
			);

			CREATE INDEX IF NOT EXISTS idx_graft_event_timestamp       ON graft_event (timestamp);
			CREATE INDEX IF NOT EXISTS idx_graft_event_peer_id         ON graft_event (peer_id);
			CREATE INDEX IF NOT EXISTS idx_graft_event_topic           ON graft_event USING hash (topic);
			CREATE INDEX IF NOT EXISTS idx_graft_event_other_peer_id   ON graft_event (other_peer_id);
		"#

/-- db.go: the DDL registered for table `prune_event`. -/
def pruneEventDDL : String := r#"
			CREATE TABLE IF NOT EXISTS prune_event (
			    id               INT         GENERATED ALWAYS AS IDENTITY,
				peer_id          TEXT        NOT NULL,
				timestamp        TIMESTAMPTZ NOT NULL,
				topic            TEXT        NOT NULL,
				other_peer_id    TEXT        NOT NULL,
			    PRIMARY KEY (id)
			);

			CREATE INDEX IF NOT EXISTS idx_prune_event_timestamp       ON prune_event (timestamp);
			CREATE INDEX IF NOT EXISTS idx_prune_event_peer_id         ON prune_event (peer_id);
			CREATE INDEX IF NOT EXISTS idx_prune_event_topic           ON prune_event USING hash (topic);
			CREATE INDEX IF NOT EXISTS idx_prune_event_other_peer_id   ON prune_event (other_peer_id);
		"#

/-- db.go: the DDL registered for table `peer_score_event`. -/
def peerScoreEventDDL : String := r#"
			CREATE TABLE IF NOT EXISTS peer_score_event (
			    id                    INT         GENERATED ALWAYS AS IDENTITY,
				peer_id               TEXT        NOT NULL,
				timestamp             TIMESTAMPTZ NOT NULL,
				other_peer_id         TEXT        NOT NULL,
				app_specific_score    FLOAT8      NOT NULL,
				ip_colocation_factor  FLOAT8      NOT NULL,
				behaviour_penalty     FLOAT8      NOT NULL,
			    PRIMARY KEY (id)
			);

			CREATE INDEX IF NOT EXISTS idx_peer_score_event_timestamp       ON peer_score_event (timestamp);
			CREATE INDEX IF NOT EXISTS idx_peer_score_event_peer_id         ON peer_score_event (peer_id);
			CREATE INDEX IF NOT EXISTS idx_peer_score_event_other_peer_id   ON peer_score_event (other_peer_id);

			CREATE TABLE IF NOT EXISTS peer_score_topic (
			    id                          INT         GENERATED ALWAYS AS IDENTITY,
			    peer_score_event_id         INT         NOT NULL,
				topic                       TEXT        NOT NULL,
				time_in_mesh                INTERVAL    NOT NULL,
				first_message_deliveries    FLOAT8      NOT NULL,
				mesh_message_deliveries     FLOAT8      NOT NULL,
				invalid_message_deliveries  FLOAT8      NOT NULL,
			    PRIMARY KEY (id)
			);

			CREATE INDEX IF NOT EXISTS idx_peer_score_topic_peer_score_event_id   ON peer_score_topic (peer_score_event_id);
			CREATE INDEX IF NOT EXISTS idx_peer_score_topic_topic                 ON peer_score_topic USING hash (topic);
		"#

/-- db.go lines 76-80: a registry entry: table name, DDL text, and the
(nullable) batch-insert closure.  The closure's external decoding
functions are passed explicitly (see `Decoders`). -/
structure EventDef where
  name : String
  ddl : String
  batchInsert : Option (Decoders → List TraceEvent → Batch)

/-- db.go lines 82-794: the `eventDefs` registry.  The Go registry is a
map with unspecified iteration order; it is modelled as an association
list in source-text order.  No property proved below depends on the
order. -/
def eventDefs : List (EventType × EventDef) :=
  [(EventType.publishMessage,
    { name := "publish_message_event", ddl := publishMessageEventDDL,
      batchInsert := some publishMessageBatchInsert }),
   (EventType.rejectMessage,
    { name := "reject_message_event", ddl := rejectMessageEventDDL,
      batchInsert := some rejectMessageBatchInsert }),
   (EventType.duplicateMessage,
    { name := "duplicate_message_event", ddl := duplicateMessageEventDDL,
      batchInsert := some duplicateMessageBatchInsert }),
   (EventType.deliverMessage,
    { name := "deliver_message_event", ddl := deliverMessageEventDDL,
      batchInsert := some deliverMessageBatchInsert }),
   (EventType.addPeer,
    { name := "add_peer_event", ddl := addPeerEventDDL,
      batchInsert := some addPeerBatchInsert }),
   (EventType.removePeer,
    { name := "remove_peer_event", ddl := removePeerEventDDL,
      batchInsert := some removePeerBatchInsert }),
   (EventType.join,
    { name := "join_event", ddl := joinEventDDL,
      batchInsert := some joinBatchInsert }),
   (EventType.leave,
    { name := "leave_event", ddl := leaveEventDDL,
      batchInsert := some leaveBatchInsert }),
   (EventType.graft,
    { name := "graft_event", ddl := graftEventDDL,
      batchInsert := some graftBatchInsert }),
   (EventType.prune,
    { name := "prune_event", ddl := pruneEventDDL,
      batchInsert := some pruneBatchInsert }),
   (EventType.peerScore,
    { name := "peer_score_event", ddl := peerScoreEventDDL,
      batchInsert := some peerScoreBatchInsert })]

/-- An operation performed on the database connection by the schema
ensurer: beginning the transaction, executing one DDL text, committing,
or rolling back (the deferred `tx.Rollback` runs on every exit path
after a successful begin; after a successful commit it is a no-op). -/
inductive DbOp where
  | beginTx
  | execDdl (sql : String)
  | commitTx
  | rollbackTx
  deriving DecidableEq, Repr

/-- The abstract connection used to model `ensureDatabaseSchema`: which
error (if any) `Begin`, each `Exec`, and `Commit` return. -/
structure DbModel where
  beginErr : Option String
  execErr : String → Option String
  commitErr : Option String

/-- The error returned by `ensureDatabaseSchema`, wrapping the underlying
cause, mirroring the `fmt.Errorf("...: %w", err)` wrappers of db.go
lines 46, 62 and 68. -/
inductive SchemaErr where
  | beginTx (cause : String)
  | execDdl (key : String) (cause : String)
  | commitTx (cause : String)
  deriving DecidableEq, Repr

/-- Whether an `eventDefs` entry is actually processed by
`ensureDatabaseSchema` (db.go lines 51-58 skip empty DDL and nil
batch-insert entries). -/
def activeEntry (p : EventType × EventDef) : Bool :=
  p.2.ddl ≠ "" && p.2.batchInsert.isSome

/-- db.go lines 50-64 plus the commit at line 66: the registry loop of
`ensureDatabaseSchema`.  `ops` accumulates the operations performed so
far (begin included).  A failing `Exec` returns the wrapping error and,
via the deferred rollback, appends `rollbackTx`; after a completed loop
the commit is attempted and the deferred rollback still runs. -/
def ensureLoop (m : DbModel) : List (EventType × EventDef) → List DbOp →
    Except SchemaErr Unit × List DbOp
  | [], ops =>
    match m.commitErr with
    | some e => (Except.error (SchemaErr.commitTx e), ops ++ [DbOp.commitTx, DbOp.rollbackTx])
    | none => (Except.ok (), ops ++ [DbOp.commitTx, DbOp.rollbackTx])
  | p :: rest, ops =>
    if activeEntry p then
      match m.execErr p.2.ddl with
      | some e =>
        (Except.error (SchemaErr.execDdl p.1.key e), ops ++ [DbOp.execDdl p.2.ddl, DbOp.rollbackTx])
      | none => ensureLoop m rest (ops ++ [DbOp.execDdl p.2.ddl])
    else ensureLoop m rest ops

/-- db.go lines 41-72: `ensureDatabaseSchema` against the abstract
connection `m`: begin a transaction (a begin failure returns at once,
before the rollback is deferred), run the registry loop, commit.  The
second component is the trace of connection operations performed. -/
def ensureDatabaseSchema (m : DbModel) : Except SchemaErr Unit × List DbOp :=
  match m.beginErr with
  | some e => (Except.error (SchemaErr.beginTx e), [])
  | none => ensureLoop m eventDefs [DbOp.beginTx]

/-- Reassign the declared `Type` tag of an event, leaving every other
field unchanged (used to state that the mappers never consult the tag). -/
def retype (g : TraceEvent → EventType) (ev : TraceEvent) : TraceEvent :=
  { ev with type := g ev }

/-- A concrete decoder instance for the evaluation theorems: the byte
strings `[1]` and `[7]` decode directly (to distinct canonical strings);
the base64 decode maps `[9]` to `[7]` and `[2]` to `[1]`; everything
else fails. -/
def dec0 : Decoders where
  decode := fun b => if b = [1] then some "QmSelf" else if b = [7] then some "QmOther" else none
  b64 := fun b => if b = [9] then some [7] else if b = [2] then some [1] else none

/-- A well-formed publish_message event for the concrete decoder `dec0`. -/
def evPub : TraceEvent :=
  { peerID := [1], timestamp := some 5, type := EventType.publishMessage,
    publishMessage := some { messageID := "m1", topic := some "t1" } }

/-- A publish_message event with no timestamp. -/
def evNoTs : TraceEvent :=
  { peerID := [1], timestamp := none, type := EventType.publishMessage,
    publishMessage := some { messageID := "m1", topic := some "t1" } }

/-- An event whose declared type is `join` but whose populated payload is
`publishMessage`. -/
def evJoinTyped : TraceEvent :=
  { peerID := [1], timestamp := some 5, type := EventType.join,
    publishMessage := some { messageID := "m1", topic := some "t1" } }

/-- A peer_score event whose envelope `PeerID` decodes directly under
`dec0` but whose `sub.PeerID` (`[9]`) fails direct decoding and succeeds
only after the base64 fallback (`[9]` base64-decodes to `[7]`). -/
def evPsOtherFallback : TraceEvent :=
  { peerID := [1], timestamp := some 5, type := EventType.peerScore,
    peerScore := some
      { peerID := [9], appSpecificScore := 10, ipColocationFactor := 11,
        behaviourPenalty := 12, topics := [] } }

/-- A peer_score event whose envelope `PeerID` (`[2]`) fails direct
decoding under `dec0` and succeeds only after the base64 fallback
(`[2]` base64-decodes to `[1]`); its `sub.PeerID` decodes directly. -/
def evPsEnvFallback : TraceEvent :=
  { peerID := [2], timestamp := some 5, type := EventType.peerScore,
    peerScore := some
      { peerID := [7], appSpecificScore := 10, ipColocationFactor := 11,
        behaviourPenalty := 12, topics := [] } }

/-- A publish_message event carrying the same malformed envelope `PeerID`
(`[2]`, direct decode fails under `dec0`) with timestamp present and
payload set. -/
def evPubBadId : TraceEvent :=
  { peerID := [2], timestamp := some 5, type := EventType.publishMessage,
    publishMessage := some { messageID := "m1", topic := some "t1" } }

/-- The all-operations-succeed connection model. -/
def dbOk : DbModel where
  beginErr := none
  execErr := fun _ => none
  commitErr := none

theorem bbiColsAux_pos : ∀ (rem idx c : Nat) (acc : String), 0 < c →
    bbiColsAux idx c rem acc =
      (idx + rem, acc ++ strJoin ((List.range rem).map (fun j => ", " ++ phStr (idx + j + 1))))
  | 0, idx, c, acc, _ => by
    simp [bbiColsAux, strJoin]
  | rem + 1, idx, c, acc, hc => by
    have hstep : bbiColsAux idx c (rem + 1) acc =
        bbiColsAux (idx + 1) (c + 1) rem
          ((if c > 0 then acc ++ ", " else acc) ++ "$" ++ toString (idx + 1)) := rfl
    rw [hstep, if_pos hc, bbiColsAux_pos rem (idx + 1) (c + 1) _ (Nat.succ_pos c)]
    rw [List.range_succ_eq_map, List.map_cons, List.map_map, strJoin]
    have hmap : (List.range rem).map ((fun j => ", " ++ phStr (idx + j + 1)) ∘ Nat.succ)
        = (List.range rem).map (fun j => ", " ++ phStr (idx + 1 + j + 1)) := by
      refine List.map_congr_left (fun j _ => ?_)
      simp only [Function.comp]
      congr 2
      omega
    rw [hmap]
    refine Prod.ext (by omega) ?_
    simp only [phStr, String.append_assoc]

theorem bbiColsAux_zero : ∀ (k idx : Nat) (acc : String),
    bbiColsAux idx 0 k acc =
      (idx + k, acc ++ sepJoin ", " ((List.range k).map (fun c => phStr (idx + c + 1))))
  | 0, idx, acc => by
    simp [bbiColsAux, sepJoin]
  | k + 1, idx, acc => by
    have hstep : bbiColsAux idx 0 (k + 1) acc =
        bbiColsAux (idx + 1) 1 k (acc ++ "$" ++ toString (idx + 1)) := rfl
    rw [hstep, bbiColsAux_pos k (idx + 1) 1 _ Nat.one_pos]
    rw [List.range_succ_eq_map, List.map_cons, List.map_map, sepJoin, List.map_map]
    have hmap : (List.range k).map ((fun y => ", " ++ y) ∘ ((fun c => phStr (idx + c + 1)) ∘ Nat.succ))
        = (List.range k).map (fun j => ", " ++ phStr (idx + 1 + j + 1)) := by
      refine List.map_congr_left (fun j _ => ?_)
      simp only [Function.comp]
      congr 2
      omega
    rw [hmap]
    refine Prod.ext (by omega) ?_
    simp only [phStr, String.append_assoc]

theorem bbiRowsAux_pos : ∀ (rem k idx r : Nat) (acc : String), 0 < r →
    bbiRowsAux k idx r rem acc =
      acc ++ strJoin ((List.range rem).map (fun j => "," ++ flatTupleSpec k (idx + j * k)))
  | 0, k, idx, r, acc, _ => by
    simp [bbiRowsAux, strJoin]
  | rem + 1, k, idx, r, acc, hr => by
    have hstep : bbiRowsAux k idx r (rem + 1) acc =
        bbiRowsAux k (bbiColsAux idx 0 k ((if r > 0 then acc ++ "," else acc) ++ "(")).1 (r + 1) rem
          ((bbiColsAux idx 0 k ((if r > 0 then acc ++ "," else acc) ++ "(")).2 ++ ")") := rfl
    rw [hstep, if_pos hr, bbiColsAux_zero]
    rw [bbiRowsAux_pos rem k (idx + k) (r + 1) _ (Nat.succ_pos r)]
    rw [List.range_succ_eq_map, List.map_cons, List.map_map, strJoin]
    have hmap : (List.range rem).map ((fun j => "," ++ flatTupleSpec k (idx + j * k)) ∘ Nat.succ)
        = (List.range rem).map (fun j => "," ++ flatTupleSpec k (idx + k + j * k)) := by
      refine List.map_congr_left (fun j _ => ?_)
      simp only [Function.comp]
      congr 2
      rw [Nat.succ_eq_add_one]
      ring
    rw [hmap]
    simp only [flatTupleSpec, phStr, Nat.zero_mul, Nat.add_zero, String.append_assoc]

theorem bbiRowsAux_zero : ∀ (N k idx : Nat) (acc : String),
    bbiRowsAux k idx 0 N acc =
      acc ++ sepJoin "," ((List.range N).map (fun r => flatTupleSpec k (idx + r * k)))
  | 0, k, idx, acc => by
    simp [bbiRowsAux, sepJoin]
  | N + 1, k, idx, acc => by
    have hstep : bbiRowsAux k idx 0 (N + 1) acc =
        bbiRowsAux k (bbiColsAux idx 0 k (acc ++ "(")).1 1 N
          ((bbiColsAux idx 0 k (acc ++ "(")).2 ++ ")") := rfl
    rw [hstep, bbiColsAux_zero, bbiRowsAux_pos N k (idx + k) 1 _ Nat.one_pos]
    rw [List.range_succ_eq_map, List.map_cons, List.map_map, sepJoin, List.map_map]
    have hmap : (List.range N).map ((fun y => "," ++ y) ∘ ((fun r => flatTupleSpec k (idx + r * k)) ∘ Nat.succ))
        = (List.range N).map (fun j => "," ++ flatTupleSpec k (idx + k + j * k)) := by
      refine List.map_congr_left (fun j _ => ?_)
      simp only [Function.comp]
      congr 2
      rw [Nat.succ_eq_add_one]
      ring
    rw [hmap]
    simp only [flatTupleSpec, phStr, Nat.zero_mul, Nat.add_zero, String.append_assoc]

/-- C2: for every table name, column list and row count,
`buildBulkInsert` returns the INSERT statement listing the columns in
order with exactly `rowCount` parenthesised value tuples whose
placeholders are numbered sequentially from 1 to
`rowCount * columns.length` in row-major order with no gaps and no
repeats — it equals the spec-side closed form `flatInsertSpec`, which
exhibits exactly that numbering. -/
theorem buildBulkInsert_closedForm (table : String) (columns : List String) (rowCount : Nat) :
    buildBulkInsert table columns rowCount = flatInsertSpec table columns rowCount := by
  rw [buildBulkInsert, bbiRowsAux_zero, flatInsertSpec]
  have hmap : (List.range rowCount).map (fun r => flatTupleSpec columns.length (0 + r * columns.length))
      = (List.range rowCount).map (fun r => flatTupleSpec columns.length (r * columns.length)) := by
    refine List.map_congr_left (fun r _ => ?_)
    rw [Nat.zero_add]
  rw [hmap]

theorem pcColsAux_spec : ∀ (rem idx : Nat) (acc : String),
    pcColsAux idx rem acc =
      (idx + rem, acc ++ strJoin ((List.range rem).map (fun j => "," ++ "$" ++ toString (idx + j + 1))))
  | 0, idx, acc => by
    simp [pcColsAux, strJoin]
  | rem + 1, idx, acc => by
    have hstep : pcColsAux idx (rem + 1) acc =
        pcColsAux (idx + 1) rem (acc ++ "," ++ "$" ++ toString (idx + 1)) := rfl
    rw [hstep, pcColsAux_spec rem (idx + 1) _]
    rw [List.range_succ_eq_map, List.map_cons, List.map_map, strJoin]
    have hmap : (List.range rem).map ((fun j => "," ++ "$" ++ toString (idx + j + 1)) ∘ Nat.succ)
        = (List.range rem).map (fun j => "," ++ "$" ++ toString (idx + 1 + j + 1)) := by
      refine List.map_congr_left (fun j _ => ?_)
      simp only [Function.comp]
      congr 2
      omega
    rw [hmap]
    refine Prod.ext (by omega) ?_
    simp only [String.append_assoc]

theorem pcRowsAux_pos : ∀ (rem : Nat) (pt : String) (childK idx r : Nat) (acc : String), 0 < r →
    pcRowsAux pt childK idx r rem acc =
      acc ++ strJoin ((List.range rem).map
        (fun j => "," ++ pcChildTupleSpec pt childK (idx + j * (childK - 1))))
  | 0, pt, childK, idx, r, acc, _ => by
    simp [pcRowsAux, strJoin]
  | rem + 1, pt, childK, idx, r, acc, hr => by
    have hstep : pcRowsAux pt childK idx r (rem + 1) acc =
        pcRowsAux pt childK
          (pcColsAux idx (childK - 1)
            ((if r > 0 then acc ++ "," else acc) ++ "(" ++ "(select id from new_" ++ pt ++ ")")).1
          (r + 1) rem
          ((pcColsAux idx (childK - 1)
            ((if r > 0 then acc ++ "," else acc) ++ "(" ++ "(select id from new_" ++ pt ++ ")")).2 ++ ")") := rfl
    rw [hstep, if_pos hr, pcColsAux_spec]
    rw [pcRowsAux_pos rem pt childK (idx + (childK - 1)) (r + 1) _ (Nat.succ_pos r)]
    rw [List.range_succ_eq_map, List.map_cons, List.map_map, strJoin]
    have hmap : (List.range rem).map ((fun j => "," ++ pcChildTupleSpec pt childK (idx + j * (childK - 1))) ∘ Nat.succ)
        = (List.range rem).map (fun j => "," ++ pcChildTupleSpec pt childK (idx + (childK - 1) + j * (childK - 1))) := by
      refine List.map_congr_left (fun j _ => ?_)
      simp only [Function.comp]
      congr 2
      rw [Nat.succ_eq_add_one]
      ring
    rw [hmap]
    simp only [pcChildTupleSpec, Nat.zero_mul, Nat.add_zero, String.append_assoc]

theorem pcRowsAux_zero : ∀ (N : Nat) (pt : String) (childK idx : Nat) (acc : String),
    pcRowsAux pt childK idx 0 N acc =
      acc ++ sepJoin "," ((List.range N).map
        (fun r => pcChildTupleSpec pt childK (idx + r * (childK - 1))))
  | 0, pt, childK, idx, acc => by
    simp [pcRowsAux, sepJoin]
  | N + 1, pt, childK, idx, acc => by
    have hstep : pcRowsAux pt childK idx 0 (N + 1) acc =
        pcRowsAux pt childK
          (pcColsAux idx (childK - 1) (acc ++ "(" ++ "(select id from new_" ++ pt ++ ")")).1 1 N
          ((pcColsAux idx (childK - 1) (acc ++ "(" ++ "(select id from new_" ++ pt ++ ")")).2 ++ ")") := rfl
    rw [hstep, pcColsAux_spec, pcRowsAux_pos N pt childK (idx + (childK - 1)) 1 _ Nat.one_pos]
    rw [List.range_succ_eq_map, List.map_cons, List.map_map, sepJoin, List.map_map]
    have hmap : (List.range N).map ((fun y => "," ++ y) ∘ ((fun r => pcChildTupleSpec pt childK (idx + r * (childK - 1))) ∘ Nat.succ))
        = (List.range N).map (fun j => "," ++ pcChildTupleSpec pt childK (idx + (childK - 1) + j * (childK - 1))) := by
      refine List.map_congr_left (fun j _ => ?_)
      simp only [Function.comp]
      congr 2
      rw [Nat.succ_eq_add_one]
      ring
    rw [hmap]
    simp only [pcChildTupleSpec, Nat.zero_mul, Nat.add_zero, String.append_assoc]

/-- C1: for every parent column list (length P), child column list and
positive child row count `m + 1`, `buildBulkInsertParentChild` emits a
single statement equal to the spec-side closed form
`parentChildInsertSpec`, which exhibits: one parent tuple with
placeholders numbered from 1 to P, captured under the named
intermediate result `new_<parentTable>` via `RETURNING id`; exactly
`m + 1` child tuples, each starting with the sub-query selecting the
captured parent identifier (not a positional parameter); and the
remaining `C - 1` placeholders of each child tuple continuing the
sequential numbering after P with no gaps and no renumbering. -/
theorem buildBulkInsertParentChild_closedForm (pt : String) (pcols : List String)
    (ct : String) (ccols : List String) (m : Nat) :
    buildBulkInsertParentChild pt pcols ct ccols (m + 1) =
      parentChildInsertSpec pt pcols ct ccols (m + 1) := by
  have hstep : buildBulkInsertParentChild pt pcols ct ccols (m + 1) =
      pcRowsAux pt ccols.length (bbiColsAux 0 0 pcols.length
          ("WITH new_" ++ pt ++ " AS (" ++ "INSERT INTO " ++ pt ++ "(" ++
            String.intercalate ", " pcols ++ ") VALUES " ++ "(")).1 0 (m + 1)
        ((bbiColsAux 0 0 pcols.length
          ("WITH new_" ++ pt ++ " AS (" ++ "INSERT INTO " ++ pt ++ "(" ++
            String.intercalate ", " pcols ++ ") VALUES " ++ "(")).2 ++ ") RETURNING id) " ++
          "INSERT INTO " ++ ct ++ "(" ++ String.intercalate ", " ccols ++ ") VALUES ") := rfl
  rw [hstep, bbiColsAux_zero]
  dsimp only
  rw [pcRowsAux_zero, parentChildInsertSpec]
  have hmap1 : (List.range pcols.length).map (fun c => phStr (0 + c + 1))
      = (List.range pcols.length).map (fun c => phStr (c + 1)) := by
    refine List.map_congr_left (fun c _ => ?_)
    rw [Nat.zero_add]
  have hmap2 : (List.range (m + 1)).map (fun r => pcChildTupleSpec pt ccols.length (0 + pcols.length + r * (ccols.length - 1)))
      = (List.range (m + 1)).map (fun r => pcChildTupleSpec pt ccols.length (pcols.length + r * (ccols.length - 1))) := by
    refine List.map_congr_left (fun r _ => ?_)
    rw [Nat.zero_add]
  rw [hmap1, hmap2]

example : buildBulkInsert "t" ["a", "b"] 3 =
    "INSERT INTO t(a, b) VALUES ($1, $2),($3, $4),($5, $6)" := by decide
example : flatInsertSpec "t" ["a", "b"] 3 =
    "INSERT INTO t(a, b) VALUES ($1, $2),($3, $4),($5, $6)" := by decide
example : buildBulkInsertParentChild "p" ["a", "b"] "c" ["i", "x", "y"] 2 =
    "WITH new_p AS (INSERT INTO p(a, b) VALUES ($1, $2) RETURNING id) " ++
    "INSERT INTO c(i, x, y) VALUES ((select id from new_p),$3,$4),((select id from new_p),$5,$6)" := by
  decide
example : buildBulkInsertParentChild "p" ["a", "b"] "c" ["i", "x", "y"] 2 =
    parentChildInsertSpec "p" ["a", "b"] "c" ["i", "x", "y"] 2 := by decide
example : buildBulkInsertParentChild "p" ["a"] "c" ["i"] 0 = buildBulkInsert "p" ["a"] 1 := by
  decide

theorem flatLoop_skipMid (row : TraceEvent → Option (List Val)) (ev : TraceEvent)
    (hev : row ev = none) :
    ∀ (xs ys : List TraceEvent) (v : List Val) (n : Nat),
      flatLoop row (xs ++ ev :: ys) v n = flatLoop row (xs ++ ys) v n
  | [], ys, v, n => by
    have h1 : flatLoop row ([] ++ ev :: ys) v n =
        match row ev with
        | none => flatLoop row ys v n
        | some tuple => flatLoop row ys (v ++ tuple) (n + 1) := rfl
    rw [h1, hev]
    rfl
  | x :: xs, ys, v, n => by
    have h1 : flatLoop row ((x :: xs) ++ ev :: ys) v n =
        match row x with
        | none => flatLoop row (xs ++ ev :: ys) v n
        | some tuple => flatLoop row (xs ++ ev :: ys) (v ++ tuple) (n + 1) := rfl
    have h2 : flatLoop row ((x :: xs) ++ ys) v n =
        match row x with
        | none => flatLoop row (xs ++ ys) v n
        | some tuple => flatLoop row (xs ++ ys) (v ++ tuple) (n + 1) := rfl
    rw [h1, h2]
    cases row x with
    | none => exact flatLoop_skipMid row ev hev xs ys v n
    | some t => exact flatLoop_skipMid row ev hev xs ys (v ++ t) (n + 1)

theorem flatLoop_map (row : TraceEvent → Option (List Val)) (h : TraceEvent → TraceEvent) :
    ∀ (evs : List TraceEvent) (v : List Val) (n : Nat),
      flatLoop row (evs.map h) v n = flatLoop (fun ev => row (h ev)) evs v n
  | [], _, _ => rfl
  | ev :: evs, v, n => by
    have h1 : flatLoop row ((ev :: evs).map h) v n =
        match row (h ev) with
        | none => flatLoop row (evs.map h) v n
        | some tuple => flatLoop row (evs.map h) (v ++ tuple) (n + 1) := rfl
    have h2 : flatLoop (fun e => row (h e)) (ev :: evs) v n =
        match row (h ev) with
        | none => flatLoop (fun e => row (h e)) evs v n
        | some tuple => flatLoop (fun e => row (h e)) evs (v ++ tuple) (n + 1) := rfl
    rw [h1, h2]
    cases row (h ev) with
    | none => exact flatLoop_map row h evs v n
    | some t => exact flatLoop_map row h evs (v ++ t) (n + 1)

theorem flatLoop_congr (row1 row2 : TraceEvent → Option (List Val))
    (h : ∀ ev, row1 ev = row2 ev) :
    ∀ (evs : List TraceEvent) (v : List Val) (n : Nat),
      flatLoop row1 evs v n = flatLoop row2 evs v n
  | [], _, _ => rfl
  | ev :: evs, v, n => by
    have h1 : flatLoop row1 (ev :: evs) v n =
        match row1 ev with
        | none => flatLoop row1 evs v n
        | some tuple => flatLoop row1 evs (v ++ tuple) (n + 1) := rfl
    have h2 : flatLoop row2 (ev :: evs) v n =
        match row2 ev with
        | none => flatLoop row2 evs v n
        | some tuple => flatLoop row2 evs (v ++ tuple) (n + 1) := rfl
    rw [h1, h2, h ev]
    cases row2 ev with
    | none => exact flatLoop_congr row1 row2 h evs v n
    | some t => exact flatLoop_congr row1 row2 h evs (v ++ t) (n + 1)

theorem flatLoop_rowCount (row : TraceEvent → Option (List Val)) :
    ∀ (evs : List TraceEvent) (v : List Val) (n : Nat),
      (flatLoop row evs v n).2 = n + evs.countP (fun ev => (row ev).isSome)
  | [], v, n => by simp [flatLoop]
  | ev :: evs, v, n => by
    have h1 : flatLoop row (ev :: evs) v n =
        match row ev with
        | none => flatLoop row evs v n
        | some tuple => flatLoop row evs (v ++ tuple) (n + 1) := rfl
    rw [h1]
    cases hx : row ev with
    | none =>
      rw [flatLoop_rowCount row evs v n, List.countP_cons]
      simp [hx]
    | some t =>
      rw [flatLoop_rowCount row evs (v ++ t) (n + 1), List.countP_cons]
      simp [hx]
      omega

theorem flatLoop_length (row : TraceEvent → Option (List Val)) (k : Nat)
    (hrow : ∀ ev t, row ev = some t → t.length = k) :
    ∀ (evs : List TraceEvent) (v : List Val) (n : Nat), v.length = n * k →
      ((flatLoop row evs v n).1).length = (flatLoop row evs v n).2 * k
  | [], v, n, hv => hv
  | ev :: evs, v, n, hv => by
    have h1 : flatLoop row (ev :: evs) v n =
        match row ev with
        | none => flatLoop row evs v n
        | some tuple => flatLoop row evs (v ++ tuple) (n + 1) := rfl
    rw [h1]
    cases hx : row ev with
    | none => exact flatLoop_length row k hrow evs v n hv
    | some t =>
      refine flatLoop_length row k hrow evs (v ++ t) (n + 1) ?_
      rw [List.length_append, hrow ev t hx, hv, Nat.succ_mul]

theorem peerScoreBatchLoop_skipMid (dec : Decoders) (ev : TraceEvent)
    (hev : peerScoreEventStmt dec ev = none) :
    ∀ (xs ys : List TraceEvent) (b : Batch),
      peerScoreBatchLoop dec (xs ++ ev :: ys) b = peerScoreBatchLoop dec (xs ++ ys) b
  | [], ys, b => by
    have h1 : peerScoreBatchLoop dec ([] ++ ev :: ys) b =
        match peerScoreEventStmt dec ev with
        | none => peerScoreBatchLoop dec ys b
        | some st => peerScoreBatchLoop dec ys (b ++ [st]) := rfl
    rw [h1, hev]
    rfl
  | x :: xs, ys, b => by
    have h1 : peerScoreBatchLoop dec ((x :: xs) ++ ev :: ys) b =
        match peerScoreEventStmt dec x with
        | none => peerScoreBatchLoop dec (xs ++ ev :: ys) b
        | some st => peerScoreBatchLoop dec (xs ++ ev :: ys) (b ++ [st]) := rfl
    have h2 : peerScoreBatchLoop dec ((x :: xs) ++ ys) b =
        match peerScoreEventStmt dec x with
        | none => peerScoreBatchLoop dec (xs ++ ys) b
        | some st => peerScoreBatchLoop dec (xs ++ ys) (b ++ [st]) := rfl
    rw [h1, h2]
    cases peerScoreEventStmt dec x with
    | none => exact peerScoreBatchLoop_skipMid dec ev hev xs ys b
    | some st => exact peerScoreBatchLoop_skipMid dec ev hev xs ys (b ++ [st])

theorem peerScoreBatchLoop_map (dec : Decoders) (h : TraceEvent → TraceEvent)
    (hstmt : ∀ ev, peerScoreEventStmt dec (h ev) = peerScoreEventStmt dec ev) :
    ∀ (evs : List TraceEvent) (b : Batch),
      peerScoreBatchLoop dec (evs.map h) b = peerScoreBatchLoop dec evs b
  | [], _ => rfl
  | ev :: evs, b => by
    have h1 : peerScoreBatchLoop dec ((ev :: evs).map h) b =
        match peerScoreEventStmt dec (h ev) with
        | none => peerScoreBatchLoop dec (evs.map h) b
        | some st => peerScoreBatchLoop dec (evs.map h) (b ++ [st]) := rfl
    have h2 : peerScoreBatchLoop dec (ev :: evs) b =
        match peerScoreEventStmt dec ev with
        | none => peerScoreBatchLoop dec evs b
        | some st => peerScoreBatchLoop dec evs (b ++ [st]) := rfl
    rw [h1, h2, hstmt ev]
    cases peerScoreEventStmt dec ev with
    | none => exact peerScoreBatchLoop_map dec h hstmt evs b
    | some st => exact peerScoreBatchLoop_map dec h hstmt evs (b ++ [st])

theorem publishMessageRow_noTimestamp (dec : Decoders) (ev : TraceEvent) (h : ev.timestamp = none) :
    publishMessageRow dec ev = none := by
  simp [publishMessageRow, h]

theorem publishMessageRow_badEnvelopeId (dec : Decoders) (ev : TraceEvent)
    (h : dec.decode ev.peerID = none) : publishMessageRow dec ev = none := by
  rcases hts : ev.timestamp with _ | ts
  · simp [publishMessageRow, hts]
  · rcases hp : ev.publishMessage with _ | sub
    · simp [publishMessageRow, hts, hp]
    · simp [publishMessageRow, hts, hp, h]

theorem publishMessageRow_retype (dec : Decoders) (g : TraceEvent → EventType) (ev : TraceEvent) :
    publishMessageRow dec (retype g ev) = publishMessageRow dec ev := by
  cases ev
  rfl

theorem publishMessageBatchInsert_skipMid (dec : Decoders) (xs ys : List TraceEvent) (ev : TraceEvent)
    (hev : ev.timestamp = none) :
    publishMessageBatchInsert dec (xs ++ ev :: ys) = publishMessageBatchInsert dec (xs ++ ys) := by
  unfold publishMessageBatchInsert
  rw [flatLoop_skipMid _ _ (publishMessageRow_noTimestamp dec ev hev)]

theorem publishMessageBatchInsert_retype (dec : Decoders) (g : TraceEvent → EventType)
    (evs : List TraceEvent) :
    publishMessageBatchInsert dec (evs.map (retype g)) = publishMessageBatchInsert dec evs := by
  unfold publishMessageBatchInsert
  rw [flatLoop_map, flatLoop_congr _ _ (fun ev => publishMessageRow_retype dec g ev)]


theorem rejectMessageRow_noTimestamp (dec : Decoders) (ev : TraceEvent) (h : ev.timestamp = none) :
    rejectMessageRow dec ev = none := by
  simp [rejectMessageRow, h]

theorem rejectMessageRow_badEnvelopeId (dec : Decoders) (ev : TraceEvent)
    (h : dec.decode ev.peerID = none) : rejectMessageRow dec ev = none := by
  rcases hts : ev.timestamp with _ | ts
  · simp [rejectMessageRow, hts]
  · rcases hp : ev.rejectMessage with _ | sub
    · simp [rejectMessageRow, hts, hp]
    · simp [rejectMessageRow, hts, hp, h]

theorem rejectMessageRow_retype (dec : Decoders) (g : TraceEvent → EventType) (ev : TraceEvent) :
    rejectMessageRow dec (retype g ev) = rejectMessageRow dec ev := by
  cases ev
  rfl

theorem rejectMessageBatchInsert_skipMid (dec : Decoders) (xs ys : List TraceEvent) (ev : TraceEvent)
    (hev : ev.timestamp = none) :
    rejectMessageBatchInsert dec (xs ++ ev :: ys) = rejectMessageBatchInsert dec (xs ++ ys) := by
  unfold rejectMessageBatchInsert
  rw [flatLoop_skipMid _ _ (rejectMessageRow_noTimestamp dec ev hev)]

theorem rejectMessageBatchInsert_retype (dec : Decoders) (g : TraceEvent → EventType)
    (evs : List TraceEvent) :
    rejectMessageBatchInsert dec (evs.map (retype g)) = rejectMessageBatchInsert dec evs := by
  unfold rejectMessageBatchInsert
  rw [flatLoop_map, flatLoop_congr _ _ (fun ev => rejectMessageRow_retype dec g ev)]


theorem duplicateMessageRow_noTimestamp (dec : Decoders) (ev : TraceEvent) (h : ev.timestamp = none) :
    duplicateMessageRow dec ev = none := by
  simp [duplicateMessageRow, h]

theorem duplicateMessageRow_badEnvelopeId (dec : Decoders) (ev : TraceEvent)
    (h : dec.decode ev.peerID = none) : duplicateMessageRow dec ev = none := by
  rcases hts : ev.timestamp with _ | ts
  · simp [duplicateMessageRow, hts]
  · rcases hp : ev.duplicateMessage with _ | sub
    · simp [duplicateMessageRow, hts, hp]
    · simp [duplicateMessageRow, hts, hp, h]

theorem duplicateMessageRow_retype (dec : Decoders) (g : TraceEvent → EventType) (ev : TraceEvent) :
    duplicateMessageRow dec (retype g ev) = duplicateMessageRow dec ev := by
  cases ev
  rfl

theorem duplicateMessageBatchInsert_skipMid (dec : Decoders) (xs ys : List TraceEvent) (ev : TraceEvent)
    (hev : ev.timestamp = none) :
    duplicateMessageBatchInsert dec (xs ++ ev :: ys) = duplicateMessageBatchInsert dec (xs ++ ys) := by
  unfold duplicateMessageBatchInsert
  rw [flatLoop_skipMid _ _ (duplicateMessageRow_noTimestamp dec ev hev)]

theorem duplicateMessageBatchInsert_retype (dec : Decoders) (g : TraceEvent → EventType)
    (evs : List TraceEvent) :
    duplicateMessageBatchInsert dec (evs.map (retype g)) = duplicateMessageBatchInsert dec evs := by
  unfold duplicateMessageBatchInsert
  rw [flatLoop_map, flatLoop_congr _ _ (fun ev => duplicateMessageRow_retype dec g ev)]


theorem deliverMessageRow_noTimestamp (dec : Decoders) (ev : TraceEvent) (h : ev.timestamp = none) :
    deliverMessageRow dec ev = none := by
  simp [deliverMessageRow, h]

theorem deliverMessageRow_badEnvelopeId (dec : Decoders) (ev : TraceEvent)
    (h : dec.decode ev.peerID = none) : deliverMessageRow dec ev = none := by
  rcases hts : ev.timestamp with _ | ts
  · simp [deliverMessageRow, hts]
  · rcases hp : ev.deliverMessage with _ | sub
    · simp [deliverMessageRow, hts, hp]
    · simp [deliverMessageRow, hts, hp, h]

theorem deliverMessageRow_retype (dec : Decoders) (g : TraceEvent → EventType) (ev : TraceEvent) :
    deliverMessageRow dec (retype g ev) = deliverMessageRow dec ev := by
  cases ev
  rfl

theorem deliverMessageBatchInsert_skipMid (dec : Decoders) (xs ys : List TraceEvent) (ev : TraceEvent)
    (hev : ev.timestamp = none) :
    deliverMessageBatchInsert dec (xs ++ ev :: ys) = deliverMessageBatchInsert dec (xs ++ ys) := by
  unfold deliverMessageBatchInsert
  rw [flatLoop_skipMid _ _ (deliverMessageRow_noTimestamp dec ev hev)]

theorem deliverMessageBatchInsert_retype (dec : Decoders) (g : TraceEvent → EventType)
    (evs : List TraceEvent) :
    deliverMessageBatchInsert dec (evs.map (retype g)) = deliverMessageBatchInsert dec evs := by
  unfold deliverMessageBatchInsert
  rw [flatLoop_map, flatLoop_congr _ _ (fun ev => deliverMessageRow_retype dec g ev)]


theorem addPeerRow_noTimestamp (dec : Decoders) (ev : TraceEvent) (h : ev.timestamp = none) :
    addPeerRow dec ev = none := by
  simp [addPeerRow, h]

theorem addPeerRow_badEnvelopeId (dec : Decoders) (ev : TraceEvent)
    (h : dec.decode ev.peerID = none) : addPeerRow dec ev = none := by
  rcases hts : ev.timestamp with _ | ts
  · simp [addPeerRow, hts]
  · rcases hp : ev.addPeer with _ | sub
    · simp [addPeerRow, hts, hp]
    · simp [addPeerRow, hts, hp, h]

theorem addPeerRow_retype (dec : Decoders) (g : TraceEvent → EventType) (ev : TraceEvent) :
    addPeerRow dec (retype g ev) = addPeerRow dec ev := by
  cases ev
  rfl

theorem addPeerBatchInsert_skipMid (dec : Decoders) (xs ys : List TraceEvent) (ev : TraceEvent)
    (hev : ev.timestamp = none) :
    addPeerBatchInsert dec (xs ++ ev :: ys) = addPeerBatchInsert dec (xs ++ ys) := by
  unfold addPeerBatchInsert
  rw [flatLoop_skipMid _ _ (addPeerRow_noTimestamp dec ev hev)]

theorem addPeerBatchInsert_retype (dec : Decoders) (g : TraceEvent → EventType)
    (evs : List TraceEvent) :
    addPeerBatchInsert dec (evs.map (retype g)) = addPeerBatchInsert dec evs := by
  unfold addPeerBatchInsert
  rw [flatLoop_map, flatLoop_congr _ _ (fun ev => addPeerRow_retype dec g ev)]


theorem removePeerRow_noTimestamp (dec : Decoders) (ev : TraceEvent) (h : ev.timestamp = none) :
    removePeerRow dec ev = none := by
  simp [removePeerRow, h]

theorem removePeerRow_badEnvelopeId (dec : Decoders) (ev : TraceEvent)
    (h : dec.decode ev.peerID = none) : removePeerRow dec ev = none := by
  rcases hts : ev.timestamp with _ | ts
  · simp [removePeerRow, hts]
  · rcases hp : ev.removePeer with _ | sub
    · simp [removePeerRow, hts, hp]
    · simp [removePeerRow, hts, hp, h]

theorem removePeerRow_retype (dec : Decoders) (g : TraceEvent → EventType) (ev : TraceEvent) :
    removePeerRow dec (retype g ev) = removePeerRow dec ev := by
  cases ev
  rfl

theorem removePeerBatchInsert_skipMid (dec : Decoders) (xs ys : List TraceEvent) (ev : TraceEvent)
    (hev : ev.timestamp = none) :
    removePeerBatchInsert dec (xs ++ ev :: ys) = removePeerBatchInsert dec (xs ++ ys) := by
  unfold removePeerBatchInsert
  rw [flatLoop_skipMid _ _ (removePeerRow_noTimestamp dec ev hev)]

theorem removePeerBatchInsert_retype (dec : Decoders) (g : TraceEvent → EventType)
    (evs : List TraceEvent) :
    removePeerBatchInsert dec (evs.map (retype g)) = removePeerBatchInsert dec evs := by
  unfold removePeerBatchInsert
  rw [flatLoop_map, flatLoop_congr _ _ (fun ev => removePeerRow_retype dec g ev)]


theorem joinRow_noTimestamp (dec : Decoders) (ev : TraceEvent) (h : ev.timestamp = none) :
    joinRow dec ev = none := by
  simp [joinRow, h]

theorem joinRow_badEnvelopeId (dec : Decoders) (ev : TraceEvent)
    (h : dec.decode ev.peerID = none) : joinRow dec ev = none := by
  rcases hts : ev.timestamp with _ | ts
  · simp [joinRow, hts]
  · rcases hp : ev.join with _ | sub
    · simp [joinRow, hts, hp]
    · simp [joinRow, hts, hp, h]

theorem joinRow_retype (dec : Decoders) (g : TraceEvent → EventType) (ev : TraceEvent) :
    joinRow dec (retype g ev) = joinRow dec ev := by
  cases ev
  rfl

theorem joinBatchInsert_skipMid (dec : Decoders) (xs ys : List TraceEvent) (ev : TraceEvent)
    (hev : ev.timestamp = none) :
    joinBatchInsert dec (xs ++ ev :: ys) = joinBatchInsert dec (xs ++ ys) := by
  unfold joinBatchInsert
  rw [flatLoop_skipMid _ _ (joinRow_noTimestamp dec ev hev)]

theorem joinBatchInsert_retype (dec : Decoders) (g : TraceEvent → EventType)
    (evs : List TraceEvent) :
    joinBatchInsert dec (evs.map (retype g)) = joinBatchInsert dec evs := by
  unfold joinBatchInsert
  rw [flatLoop_map, flatLoop_congr _ _ (fun ev => joinRow_retype dec g ev)]


theorem leaveRow_noTimestamp (dec : Decoders) (ev : TraceEvent) (h : ev.timestamp = none) :
    leaveRow dec ev = none := by
  simp [leaveRow, h]

theorem leaveRow_badEnvelopeId (dec : Decoders) (ev : TraceEvent)
    (h : dec.decode ev.peerID = none) : leaveRow dec ev = none := by
  rcases hts : ev.timestamp with _ | ts
  · simp [leaveRow, hts]
  · rcases hp : ev.leave with _ | sub
    · simp [leaveRow, hts, hp]
    · simp [leaveRow, hts, hp, h]

theorem leaveRow_retype (dec : Decoders) (g : TraceEvent → EventType) (ev : TraceEvent) :
    leaveRow dec (retype g ev) = leaveRow dec ev := by
  cases ev
  rfl

theorem leaveBatchInsert_skipMid (dec : Decoders) (xs ys : List TraceEvent) (ev : TraceEvent)
    (hev : ev.timestamp = none) :
    leaveBatchInsert dec (xs ++ ev :: ys) = leaveBatchInsert dec (xs ++ ys) := by
  unfold leaveBatchInsert
  rw [flatLoop_skipMid _ _ (leaveRow_noTimestamp dec ev hev)]

theorem leaveBatchInsert_retype (dec : Decoders) (g : TraceEvent → EventType)
    (evs : List TraceEvent) :
    leaveBatchInsert dec (evs.map (retype g)) = leaveBatchInsert dec evs := by
  unfold leaveBatchInsert
  rw [flatLoop_map, flatLoop_congr _ _ (fun ev => leaveRow_retype dec g ev)]


theorem graftRow_noTimestamp (dec : Decoders) (ev : TraceEvent) (h : ev.timestamp = none) :
    graftRow dec ev = none := by
  simp [graftRow, h]

theorem graftRow_badEnvelopeId (dec : Decoders) (ev : TraceEvent)
    (h : dec.decode ev.peerID = none) : graftRow dec ev = none := by
  rcases hts : ev.timestamp with _ | ts
  · simp [graftRow, hts]
  · rcases hp : ev.graft with _ | sub
    · simp [graftRow, hts, hp]
    · simp [graftRow, hts, hp, h]

theorem graftRow_retype (dec : Decoders) (g : TraceEvent → EventType) (ev : TraceEvent) :
    graftRow dec (retype g ev) = graftRow dec ev := by
  cases ev
  rfl

theorem graftBatchInsert_skipMid (dec : Decoders) (xs ys : List TraceEvent) (ev : TraceEvent)
    (hev : ev.timestamp = none) :
    graftBatchInsert dec (xs ++ ev :: ys) = graftBatchInsert dec (xs ++ ys) := by
  unfold graftBatchInsert
  rw [flatLoop_skipMid _ _ (graftRow_noTimestamp dec ev hev)]

theorem graftBatchInsert_retype (dec : Decoders) (g : TraceEvent → EventType)
    (evs : List TraceEvent) :
    graftBatchInsert dec (evs.map (retype g)) = graftBatchInsert dec evs := by
  unfold graftBatchInsert
  rw [flatLoop_map, flatLoop_congr _ _ (fun ev => graftRow_retype dec g ev)]


theorem pruneRow_noTimestamp (dec : Decoders) (ev : TraceEvent) (h : ev.timestamp = none) :
    pruneRow dec ev = none := by
  simp [pruneRow, h]

theorem pruneRow_badEnvelopeId (dec : Decoders) (ev : TraceEvent)
    (h : dec.decode ev.peerID = none) : pruneRow dec ev = none := by
  rcases hts : ev.timestamp with _ | ts
  · simp [pruneRow, hts]
  · rcases hp : ev.prune with _ | sub
    · simp [pruneRow, hts, hp]
    · simp [pruneRow, hts, hp, h]

theorem pruneRow_retype (dec : Decoders) (g : TraceEvent → EventType) (ev : TraceEvent) :
    pruneRow dec (retype g ev) = pruneRow dec ev := by
  cases ev
  rfl

theorem pruneBatchInsert_skipMid (dec : Decoders) (xs ys : List TraceEvent) (ev : TraceEvent)
    (hev : ev.timestamp = none) :
    pruneBatchInsert dec (xs ++ ev :: ys) = pruneBatchInsert dec (xs ++ ys) := by
  unfold pruneBatchInsert
  rw [flatLoop_skipMid _ _ (pruneRow_noTimestamp dec ev hev)]

theorem pruneBatchInsert_retype (dec : Decoders) (g : TraceEvent → EventType)
    (evs : List TraceEvent) :
    pruneBatchInsert dec (evs.map (retype g)) = pruneBatchInsert dec evs := by
  unfold pruneBatchInsert
  rw [flatLoop_map, flatLoop_congr _ _ (fun ev => pruneRow_retype dec g ev)]


theorem peerScoreEventStmt_noTimestamp (dec : Decoders) (ev : TraceEvent)
    (h : ev.timestamp = none) : peerScoreEventStmt dec ev = none := by
  simp [peerScoreEventStmt, h]

theorem peerScoreEventStmt_retype (dec : Decoders) (g : TraceEvent → EventType)
    (ev : TraceEvent) :
    peerScoreEventStmt dec (retype g ev) = peerScoreEventStmt dec ev := by
  cases ev
  rfl

theorem peerScoreBatchInsert_skipMid (dec : Decoders) (xs ys : List TraceEvent)
    (ev : TraceEvent) (hev : ev.timestamp = none) :
    peerScoreBatchInsert dec (xs ++ ev :: ys) = peerScoreBatchInsert dec (xs ++ ys) := by
  unfold peerScoreBatchInsert
  rw [peerScoreBatchLoop_skipMid dec ev (peerScoreEventStmt_noTimestamp dec ev hev)]

theorem peerScoreBatchInsert_retype (dec : Decoders) (g : TraceEvent → EventType)
    (evs : List TraceEvent) :
    peerScoreBatchInsert dec (evs.map (retype g)) = peerScoreBatchInsert dec evs := by
  unfold peerScoreBatchInsert
  rw [peerScoreBatchLoop_map dec _ (fun ev => peerScoreEventStmt_retype dec g ev)]

/-- C5: for every parent table, parent column list, child table and child
column list, `buildBulkInsertParentChild` with `childRowCount = 0`
returns exactly the parent-only one-row flat insert that
`buildBulkInsert` produces, and the returned statement does not depend
on (hence contains no reference to) the child table or its columns. -/
theorem buildBulkInsertParentChild_zeroChild :
    ∀ (pt : String) (pcols : List String) (ct : String) (ccols : List String),
      buildBulkInsertParentChild pt pcols ct ccols 0 = buildBulkInsert pt pcols 1 ∧
      ∀ (ct2 : String) (ccols2 : List String),
        buildBulkInsertParentChild pt pcols ct ccols 0 =
          buildBulkInsertParentChild pt pcols ct2 ccols2 0 :=
  fun _ _ _ _ => ⟨rfl, fun _ _ => rfl⟩

/-- C4 counterexample: with the empty input sequence the publish_message
mapper invokes `buildBulkInsert` with `rowCount = 0` and queues the
resulting statement, which contains zero value tuples — refuting the
claim that, given the upstream filtering, no zero-tuple flat statement
is ever queued. -/
theorem publishMessage_emptyInput_zeroTupleQueued :
    publishMessageBatchInsert dec0 [] =
      [("INSERT INTO publish_message_event(peer_id, timestamp, message_id, topic) VALUES ",
        [])] := by
  decide

/-- C4 (amended): a flat-kind BatchInsert always queues exactly one
statement, built with `rowCount` equal to the number of events surviving
the row filtering; the statement contains at least one value tuple iff
at least one input event survives — with an empty or fully-dropped
input, `buildBulkInsert` is invoked with `rowCount = 0` and the
zero-tuple statement is queued. -/
theorem flatBatch_tupleCount_iff :
    (∀ (row : TraceEvent → Option (List Val)) (evs : List TraceEvent),
      (flatLoop row evs [] 0).2 = evs.countP (fun ev => (row ev).isSome)) ∧
    (∀ (row : TraceEvent → Option (List Val)) (evs : List TraceEvent),
      0 < (flatLoop row evs [] 0).2 ↔ ∃ ev ∈ evs, (row ev).isSome = true) ∧
    ∀ (dec : Decoders) (evs : List TraceEvent),
      publishMessageBatchInsert dec evs =
        [(buildBulkInsert "publish_message_event" publishMessageCols
            (flatLoop (publishMessageRow dec) evs [] 0).2,
          (flatLoop (publishMessageRow dec) evs [] 0).1)] := by
  refine ⟨fun row evs => ?_, fun row evs => ?_, fun dec evs => rfl⟩
  · rw [flatLoop_rowCount row evs [] 0, Nat.zero_add]
  · rw [flatLoop_rowCount row evs [] 0, Nat.zero_add]
    exact List.countP_pos_iff

theorem publishMessage_singleRow_eval (dec : Decoders) (ev : TraceEvent) (ts : Int)
    (sub : PublishMessagePayload) (pid : String) (hts : ev.timestamp = some ts)
    (hpm : ev.publishMessage = some sub) (hdec : dec.decode ev.peerID = some pid) :
    publishMessageBatchInsert dec [ev] =
      [(buildBulkInsert "publish_message_event" publishMessageCols 1,
        [Val.str pid, Val.time ts, Val.str sub.messageID,
          Val.str (derefString sub.topic "")])] := by
  have hrow : publishMessageRow dec ev =
      some [Val.str pid, Val.time ts, Val.str sub.messageID,
        Val.str (derefString sub.topic "")] := by
    simp [publishMessageRow, hts, hpm, hdec]
  unfold publishMessageBatchInsert
  have h1 : flatLoop (publishMessageRow dec) [ev] [] 0 =
      ([Val.str pid, Val.time ts, Val.str sub.messageID,
        Val.str (derefString sub.topic "")], 1) := by
    simp [flatLoop, hrow]
  rw [h1]

/-- C8: mapping a single PublishMessage event with a present timestamp, a
decodable peer id, a message id and a topic yields exactly one column
tuple, in order: the canonical peer-id string, the timestamp value
(epoch-nanosecond conversion), the message id, and the topic with the
empty string substituted when absent; and for every input the values
list has length exactly `rowCount * 4`, matching the placeholder count
of the generated statement. -/
theorem publishMessage_tuple_shape :
    (∀ (dec : Decoders) (ev : TraceEvent) (ts : Int) (sub : PublishMessagePayload)
      (pid : String), ev.timestamp = some ts → ev.publishMessage = some sub →
      dec.decode ev.peerID = some pid →
      publishMessageBatchInsert dec [ev] =
        [(buildBulkInsert "publish_message_event" publishMessageCols 1,
          [Val.str pid, Val.time ts, Val.str sub.messageID,
            Val.str (derefString sub.topic "")])]) ∧
    ∀ (dec : Decoders) (evs : List TraceEvent),
      ((flatLoop (publishMessageRow dec) evs [] 0).1).length =
        (flatLoop (publishMessageRow dec) evs [] 0).2 * publishMessageCols.length := by
  constructor
  · intro dec ev ts sub pid hts hpm hdec
    exact publishMessage_singleRow_eval dec ev ts sub pid hts hpm hdec
  · intro dec evs
    refine flatLoop_length _ 4 ?_ evs [] 0 rfl
    intro ev t h
    rw [publishMessageRow] at h
    cases hts : ev.timestamp with
    | none => simp [hts] at h
    | some ts =>
      cases hpm : ev.publishMessage with
      | none => simp [hts, hpm] at h
      | some sub =>
        cases hdec : dec.decode ev.peerID with
        | none => simp [hts, hpm, hdec] at h
        | some pid =>
          simp [hts, hpm, hdec] at h
          subst h
          rfl

/-- C8 check: the single-event part at a concrete input. -/
theorem publishMessage_tuple_shape_check :
    publishMessageBatchInsert dec0 [evPub] =
      [(buildBulkInsert "publish_message_event" publishMessageCols 1,
        [Val.str "QmSelf", Val.time 5, Val.str "m1", Val.str "t1"])] :=
  publishMessage_tuple_shape.1 dec0 evPub 5
    { messageID := "m1", topic := some "t1" } "QmSelf" rfl rfl (by decide)

/-- C7: for every registered event type's BatchInsert function, an event
whose timestamp is absent contributes nothing: deleting it from any
position of the input sequence leaves the produced batch unchanged,
regardless of its payload and identifiers. -/
theorem batchInsert_skips_missing_timestamp :
    ∀ p ∈ eventDefs, ∀ f, p.2.batchInsert = some f →
    ∀ (dec : Decoders) (xs ys : List TraceEvent) (ev : TraceEvent), ev.timestamp = none →
      f dec (xs ++ ev :: ys) = f dec (xs ++ ys) := by
  intro p hp f hf dec xs ys ev hev
  simp only [eventDefs, List.mem_cons, List.not_mem_nil, or_false] at hp
  rcases hp with rfl | rfl | rfl | rfl | rfl | rfl | rfl | rfl | rfl | rfl | rfl
  · injection hf with hf
    subst hf
    exact publishMessageBatchInsert_skipMid dec xs ys ev hev
  · injection hf with hf
    subst hf
    exact rejectMessageBatchInsert_skipMid dec xs ys ev hev
  · injection hf with hf
    subst hf
    exact duplicateMessageBatchInsert_skipMid dec xs ys ev hev
  · injection hf with hf
    subst hf
    exact deliverMessageBatchInsert_skipMid dec xs ys ev hev
  · injection hf with hf
    subst hf
    exact addPeerBatchInsert_skipMid dec xs ys ev hev
  · injection hf with hf
    subst hf
    exact removePeerBatchInsert_skipMid dec xs ys ev hev
  · injection hf with hf
    subst hf
    exact joinBatchInsert_skipMid dec xs ys ev hev
  · injection hf with hf
    subst hf
    exact leaveBatchInsert_skipMid dec xs ys ev hev
  · injection hf with hf
    subst hf
    exact graftBatchInsert_skipMid dec xs ys ev hev
  · injection hf with hf
    subst hf
    exact pruneBatchInsert_skipMid dec xs ys ev hev
  · injection hf with hf
    subst hf
    exact peerScoreBatchInsert_skipMid dec xs ys ev hev

/-- C7 check: a timestamp-less event in the middle of a publish_message
input changes nothing. -/
theorem batchInsert_skips_missing_timestamp_check :
    publishMessageBatchInsert dec0 ([evPub] ++ evNoTs :: [evPub]) =
      publishMessageBatchInsert dec0 ([evPub] ++ [evPub]) :=
  batchInsert_skips_missing_timestamp
    (EventType.publishMessage,
      { name := "publish_message_event", ddl := publishMessageEventDDL,
        batchInsert := some publishMessageBatchInsert })
    (List.mem_cons_self _ _) publishMessageBatchInsert rfl dec0 [evPub] [evPub] evNoTs rfl

/-- C10: no BatchInsert function consults the declared `Type` tag:
reassigning every event's tag arbitrarily leaves every registered
mapper's output unchanged; and an event declaring type `join` whose
`publishMessage` payload is populated (timestamp present, decodable
identifier) is accepted by the publish_message mapper and contributes a
row. -/
theorem batchInsert_ignores_declared_type :
    (∀ p ∈ eventDefs, ∀ f, p.2.batchInsert = some f →
      ∀ (dec : Decoders) (g : TraceEvent → EventType) (evs : List TraceEvent),
        f dec (evs.map (retype g)) = f dec evs) ∧
    ∀ (dec : Decoders) (ev : TraceEvent) (ts : Int) (sub : PublishMessagePayload)
      (pid : String), ev.type = EventType.join → ev.timestamp = some ts →
      ev.publishMessage = some sub → dec.decode ev.peerID = some pid →
      publishMessageBatchInsert dec [ev] =
        [(buildBulkInsert "publish_message_event" publishMessageCols 1,
          [Val.str pid, Val.time ts, Val.str sub.messageID,
            Val.str (derefString sub.topic "")])] := by
  constructor
  · intro p hp f hf dec g evs
    simp only [eventDefs, List.mem_cons, List.not_mem_nil, or_false] at hp
    rcases hp with rfl | rfl | rfl | rfl | rfl | rfl | rfl | rfl | rfl | rfl | rfl
    · injection hf with hf
      subst hf
      exact publishMessageBatchInsert_retype dec g evs
    · injection hf with hf
      subst hf
      exact rejectMessageBatchInsert_retype dec g evs
    · injection hf with hf
      subst hf
      exact duplicateMessageBatchInsert_retype dec g evs
    · injection hf with hf
      subst hf
      exact deliverMessageBatchInsert_retype dec g evs
    · injection hf with hf
      subst hf
      exact addPeerBatchInsert_retype dec g evs
    · injection hf with hf
      subst hf
      exact removePeerBatchInsert_retype dec g evs
    · injection hf with hf
      subst hf
      exact joinBatchInsert_retype dec g evs
    · injection hf with hf
      subst hf
      exact leaveBatchInsert_retype dec g evs
    · injection hf with hf
      subst hf
      exact graftBatchInsert_retype dec g evs
    · injection hf with hf
      subst hf
      exact pruneBatchInsert_retype dec g evs
    · injection hf with hf
      subst hf
      exact peerScoreBatchInsert_retype dec g evs
  · intro dec ev ts sub pid _ hts hpm hdec
    exact publishMessage_singleRow_eval dec ev ts sub pid hts hpm hdec

/-- C10 check: the join-declared event with a publish payload is accepted
by the publish_message mapper. -/
theorem batchInsert_ignores_declared_type_check :
    publishMessageBatchInsert dec0 [evJoinTyped] =
      [(buildBulkInsert "publish_message_event" publishMessageCols 1,
        [Val.str "QmSelf", Val.time 5, Val.str "m1", Val.str "t1"])] :=
  batchInsert_ignores_declared_type.2 dec0 evJoinTyped 5
    { messageID := "m1", topic := some "t1" } "QmSelf" rfl rfl rfl (by decide)

set_option maxRecDepth 4000 in
/-- C3: evaluation at the failing input.  `evPsOtherFallback` is a
PeerScore event whose envelope `PeerID` (`[1]`) decodes directly to
`"QmSelf"` (third conjunct) and whose `OtherPeerID` (`[9]`) fails direct
decoding but base64-decodes to `[7]`, which decodes to `"QmOther"`.
The row is kept, but the parent tuple's `peer_id` value is `"QmOther"`
(the fallback-decoded other identifier, overwriting the envelope
identifier) and its `other_peer_id` value is the empty string (the
canonical form of the zero `peer.ID`), because db.go line 755 assigns
the fallback result to `peerID` instead of `otherPeerID`. -/
theorem peerScore_otherId_fallback_eval :
    peerScoreBatchInsert dec0 [evPsOtherFallback] =
      [(buildBulkInsert "peer_score_event" peerScoreParentCols 1,
        [Val.str "QmOther", Val.time 5, Val.str "", Val.float 10, Val.float 11,
          Val.float 12])] ∧
    dec0.decode evPsOtherFallback.peerID = some "QmSelf" ∧
    dec0.decode ((evPsOtherFallback.peerScore.map PeerScorePayload.peerID).getD []) = none := by
  refine ⟨by decide, by decide, by decide⟩

/-- C6: a peer identifier given as bytes that fail direct decoding but
whose base64 decode succeeds is accepted for PeerScore events: the event
yields a queued statement whose parent values start with the
fallback-decoded identifier.  Any event of any other registered type
whose envelope `PeerID` is those same malformed bytes is dropped — its
row function yields no tuple — whatever its timestamp and payload. -/
theorem peerScore_base64_fallback_asymmetry :
    ∀ (dec : Decoders) (raw d : Bytes) (s o : String) (ts : Int) (sub : PeerScorePayload)
      (ev ev2 : TraceEvent),
      dec.decode raw = none → dec.b64 raw = some d → dec.decode d = some s →
      ev.peerID = raw → ev.timestamp = some ts → ev.peerScore = some sub →
      dec.decode sub.peerID = some o → ev2.peerID = raw →
      peerScoreBatchInsert dec [ev] =
        [(buildBulkInsertParentChild "peer_score_event" peerScoreParentCols
            "peer_score_topic" peerScoreChildCols
            (peerScoreChildLoop sub.topics
              [Val.str s, Val.time ts, Val.str o, Val.float sub.appSpecificScore,
                Val.float sub.ipColocationFactor, Val.float sub.behaviourPenalty] 0).2,
          (peerScoreChildLoop sub.topics
            [Val.str s, Val.time ts, Val.str o, Val.float sub.appSpecificScore,
              Val.float sub.ipColocationFactor, Val.float sub.behaviourPenalty] 0).1)] ∧
      (publishMessageRow dec ev2 = none ∧ rejectMessageRow dec ev2 = none ∧
        duplicateMessageRow dec ev2 = none ∧ deliverMessageRow dec ev2 = none ∧
        addPeerRow dec ev2 = none ∧ removePeerRow dec ev2 = none ∧
        joinRow dec ev2 = none ∧ leaveRow dec ev2 = none ∧
        graftRow dec ev2 = none ∧ pruneRow dec ev2 = none) := by
  intro dec raw d s o ts sub ev ev2 hdec hb64 hd hraw hts hps hother hraw2
  have hbad : dec.decode ev2.peerID = none := by rw [hraw2]; exact hdec
  refine ⟨?_, publishMessageRow_badEnvelopeId dec ev2 hbad,
    rejectMessageRow_badEnvelopeId dec ev2 hbad,
    duplicateMessageRow_badEnvelopeId dec ev2 hbad,
    deliverMessageRow_badEnvelopeId dec ev2 hbad,
    addPeerRow_badEnvelopeId dec ev2 hbad,
    removePeerRow_badEnvelopeId dec ev2 hbad,
    joinRow_badEnvelopeId dec ev2 hbad,
    leaveRow_badEnvelopeId dec ev2 hbad,
    graftRow_badEnvelopeId dec ev2 hbad,
    pruneRow_badEnvelopeId dec ev2 hbad⟩
  have hids : peerScoreIds dec ev.peerID sub.peerID = some (s, o) := by
    rw [hraw]
    simp [peerScoreIds, hdec, hb64, hd, hother]
  have hstmt : peerScoreEventStmt dec ev =
      some (buildBulkInsertParentChild "peer_score_event" peerScoreParentCols
          "peer_score_topic" peerScoreChildCols
          (peerScoreChildLoop sub.topics
            [Val.str s, Val.time ts, Val.str o, Val.float sub.appSpecificScore,
              Val.float sub.ipColocationFactor, Val.float sub.behaviourPenalty] 0).2,
        (peerScoreChildLoop sub.topics
          [Val.str s, Val.time ts, Val.str o, Val.float sub.appSpecificScore,
            Val.float sub.ipColocationFactor, Val.float sub.behaviourPenalty] 0).1) := by
    rw [peerScoreEventStmt, hts, hps]
    dsimp only
    rw [hids]
  have h1 : peerScoreBatchInsert dec [ev] =
      match peerScoreEventStmt dec ev with
      | none => peerScoreBatchLoop dec [] []
      | some st => peerScoreBatchLoop dec [] ([] ++ [st]) := rfl
  rw [h1, hstmt]
  rfl

/-- C6 check: the asymmetry at concrete inputs — `[2]` fails direct
decoding and base64-decodes to `[1]`, which decodes; the PeerScore
event survives with the fallback-decoded identifier while the
publish_message event with the same envelope bytes is dropped. -/
theorem peerScore_base64_fallback_asymmetry_check :
    peerScoreBatchInsert dec0 [evPsEnvFallback] =
      [(buildBulkInsert "peer_score_event" peerScoreParentCols 1,
        [Val.str "QmSelf", Val.time 5, Val.str "QmOther", Val.float 10, Val.float 11,
          Val.float 12])] ∧
    (publishMessageRow dec0 evPubBadId = none ∧ rejectMessageRow dec0 evPubBadId = none ∧
      duplicateMessageRow dec0 evPubBadId = none ∧ deliverMessageRow dec0 evPubBadId = none ∧
      addPeerRow dec0 evPubBadId = none ∧ removePeerRow dec0 evPubBadId = none ∧
      joinRow dec0 evPubBadId = none ∧ leaveRow dec0 evPubBadId = none ∧
      graftRow dec0 evPubBadId = none ∧ pruneRow dec0 evPubBadId = none) :=
  peerScore_base64_fallback_asymmetry dec0 [2] [1] "QmSelf" "QmOther" 5
    { peerID := [7], appSpecificScore := 10, ipColocationFactor := 11,
      behaviourPenalty := 12, topics := [] }
    evPsEnvFallback evPubBadId (by decide) (by decide) (by decide) rfl rfl rfl
    (by decide) rfl

theorem dbOps_append_pair_getLast (ops : List DbOp) (a b : DbOp) :
    (ops ++ [a, b]).getLast? = some b := by
  rw [show ops ++ [a, b] = (ops ++ [a]) ++ [b] by simp]
  exact List.getLast?_concat _

theorem ensureLoop_allOk (m : DbModel) (hc : m.commitErr = none) :
    ∀ (l : List (EventType × EventDef)) (ops : List DbOp),
      (∀ p ∈ l, activeEntry p = true → m.execErr p.2.ddl = none) →
      ensureLoop m l ops =
        (Except.ok (), ops ++ (l.filter activeEntry).map (fun p => DbOp.execDdl p.2.ddl) ++
          [DbOp.commitTx, DbOp.rollbackTx])
  | [], ops, _ => by simp [ensureLoop, hc]
  | p :: rest, ops, h => by
    have h1 : ensureLoop m (p :: rest) ops =
        (if activeEntry p then
          match m.execErr p.2.ddl with
          | some e => (Except.error (SchemaErr.execDdl p.1.key e),
              ops ++ [DbOp.execDdl p.2.ddl, DbOp.rollbackTx])
          | none => ensureLoop m rest (ops ++ [DbOp.execDdl p.2.ddl])
        else ensureLoop m rest ops) := rfl
    rw [h1]
    by_cases ha : activeEntry p = true
    · rw [if_pos ha, h p (List.mem_cons_self p rest) ha]
      rw [ensureLoop_allOk m hc rest (ops ++ [DbOp.execDdl p.2.ddl])
        (fun q hq hqa => h q (List.mem_cons_of_mem p hq) hqa)]
      simp [List.filter_cons, ha, List.append_assoc]
    · rw [if_neg ha]
      rw [ensureLoop_allOk m hc rest ops (fun q hq hqa => h q (List.mem_cons_of_mem p hq) hqa)]
      simp [List.filter_cons, ha]

theorem ensureLoop_commitTx_mem (m : DbModel) :
    ∀ (l : List (EventType × EventDef)) (ops : List DbOp),
      DbOp.commitTx ∈ (ensureLoop m l ops).2 →
      DbOp.commitTx ∈ ops ∨ ∀ p ∈ l, activeEntry p = true → m.execErr p.2.ddl = none
  | [], _, _ => Or.inr (by simp)
  | p :: rest, ops, hmem => by
    have h1 : ensureLoop m (p :: rest) ops =
        (if activeEntry p then
          match m.execErr p.2.ddl with
          | some e => (Except.error (SchemaErr.execDdl p.1.key e),
              ops ++ [DbOp.execDdl p.2.ddl, DbOp.rollbackTx])
          | none => ensureLoop m rest (ops ++ [DbOp.execDdl p.2.ddl])
        else ensureLoop m rest ops) := rfl
    rw [h1] at hmem
    by_cases ha : activeEntry p = true
    · rw [if_pos ha] at hmem
      cases hx : m.execErr p.2.ddl with
      | some e =>
        rw [hx] at hmem
        simp only [List.mem_append, List.mem_cons, List.not_mem_nil, or_false] at hmem
        rcases hmem with hin | hfalse | hfalse
        · exact Or.inl hin
        · exact absurd hfalse (by simp)
        · exact absurd hfalse (by simp)
      | none =>
        rw [hx] at hmem
        rcases ensureLoop_commitTx_mem m rest (ops ++ [DbOp.execDdl p.2.ddl]) hmem with hin | hall
        · simp only [List.mem_append, List.mem_cons, List.not_mem_nil, or_false] at hin
          rcases hin with hin | hfalse
          · exact Or.inl hin
          · exact absurd hfalse (by simp)
        · refine Or.inr (fun q hq hqa => ?_)
          rcases List.mem_cons.mp hq with rfl | hq2
          · exact hx
          · exact hall q hq2 hqa
    · rw [if_neg ha] at hmem
      rcases ensureLoop_commitTx_mem m rest ops hmem with hin | hall
      · exact Or.inl hin
      · refine Or.inr (fun q hq hqa => ?_)
        rcases List.mem_cons.mp hq with rfl | hq2
        · exact absurd hqa ha
        · exact hall q hq2 hqa

theorem ensureLoop_fail (m : DbModel) :
    ∀ (l : List (EventType × EventDef)) (ops : List DbOp),
      (∃ p ∈ l, activeEntry p = true ∧ m.execErr p.2.ddl ≠ none) →
      ∃ k c, (ensureLoop m l ops).1 = Except.error (SchemaErr.execDdl k c) ∧
        ∃ p ∈ l, activeEntry p = true ∧ p.1.key = k ∧ m.execErr p.2.ddl = some c
  | [], _, hex => absurd hex (by simp)
  | p :: rest, ops, hex => by
    have h1 : ensureLoop m (p :: rest) ops =
        (if activeEntry p then
          match m.execErr p.2.ddl with
          | some e => (Except.error (SchemaErr.execDdl p.1.key e),
              ops ++ [DbOp.execDdl p.2.ddl, DbOp.rollbackTx])
          | none => ensureLoop m rest (ops ++ [DbOp.execDdl p.2.ddl])
        else ensureLoop m rest ops) := rfl
    rw [h1]
    by_cases ha : activeEntry p = true
    · cases hx : m.execErr p.2.ddl with
      | some e =>
        rw [if_pos ha]
        exact ⟨p.1.key, e, rfl, p, List.mem_cons_self p rest, ha, rfl, hx⟩
      | none =>
        rw [if_pos ha]
        have hex2 : ∃ q ∈ rest, activeEntry q = true ∧ m.execErr q.2.ddl ≠ none := by
          rcases hex with ⟨q, hq, hqa, hqne⟩
          rcases List.mem_cons.mp hq with rfl | hq2
          · exact absurd hx hqne
          · exact ⟨q, hq2, hqa, hqne⟩
        obtain ⟨k, c, hres, q, hq, hqrest⟩ :=
          ensureLoop_fail m rest (ops ++ [DbOp.execDdl p.2.ddl]) hex2
        exact ⟨k, c, hres, q, List.mem_cons_of_mem p hq, hqrest⟩
    · rw [if_neg ha]
      have hex2 : ∃ q ∈ rest, activeEntry q = true ∧ m.execErr q.2.ddl ≠ none := by
        rcases hex with ⟨q, hq, hqa, hqne⟩
        rcases List.mem_cons.mp hq with rfl | hq2
        · exact absurd hqa ha
        · exact ⟨q, hq2, hqa, hqne⟩
      obtain ⟨k, c, hres, q, hq, hqrest⟩ := ensureLoop_fail m rest ops hex2
      exact ⟨k, c, hres, q, List.mem_cons_of_mem p hq, hqrest⟩

theorem ensureLoop_lastRollback (m : DbModel) :
    ∀ (l : List (EventType × EventDef)) (ops : List DbOp),
      ((ensureLoop m l ops).2).getLast? = some DbOp.rollbackTx
  | [], ops => by
    cases hc : m.commitErr with
    | none => simp [ensureLoop, hc, dbOps_append_pair_getLast]
    | some e => simp [ensureLoop, hc, dbOps_append_pair_getLast]
  | p :: rest, ops => by
    have h1 : ensureLoop m (p :: rest) ops =
        (if activeEntry p then
          match m.execErr p.2.ddl with
          | some e => (Except.error (SchemaErr.execDdl p.1.key e),
              ops ++ [DbOp.execDdl p.2.ddl, DbOp.rollbackTx])
          | none => ensureLoop m rest (ops ++ [DbOp.execDdl p.2.ddl])
        else ensureLoop m rest ops) := rfl
    rw [h1]
    by_cases ha : activeEntry p = true
    · cases hx : m.execErr p.2.ddl with
      | some e =>
        rw [if_pos ha]
        exact dbOps_append_pair_getLast ops _ _
      | none =>
        rw [if_pos ha]
        exact ensureLoop_lastRollback m rest (ops ++ [DbOp.execDdl p.2.ddl])
    · rw [if_neg ha]
      exact ensureLoop_lastRollback m rest ops

/-- C9: `ensureDatabaseSchema` runs inside a single transaction: when
every operation succeeds it executes exactly the DDL of every registry
entry with non-empty DDL (and a batch-insert function), in between one
`begin` and one `commit`; a `commit` can appear in the operation trace
only when every such DDL execution succeeded (no partial commit); when
some DDL execution fails the function returns an error wrapping the
failing entry's key and the underlying cause and no commit is performed;
and on every exit path after a successful begin the final operation on
the connection is the (deferred) rollback. -/
theorem ensureDatabaseSchema_spec (m : DbModel) :
    (m.beginErr = none → m.commitErr = none →
      (∀ p ∈ eventDefs, activeEntry p = true → m.execErr p.2.ddl = none) →
      ensureDatabaseSchema m =
        (Except.ok (), DbOp.beginTx ::
          ((eventDefs.filter activeEntry).map (fun p => DbOp.execDdl p.2.ddl) ++
            [DbOp.commitTx, DbOp.rollbackTx]))) ∧
    (DbOp.commitTx ∈ (ensureDatabaseSchema m).2 →
      ∀ p ∈ eventDefs, activeEntry p = true → m.execErr p.2.ddl = none) ∧
    (m.beginErr = none →
      (∃ p ∈ eventDefs, activeEntry p = true ∧ m.execErr p.2.ddl ≠ none) →
      (∃ k c, (ensureDatabaseSchema m).1 = Except.error (SchemaErr.execDdl k c) ∧
        ∃ p ∈ eventDefs, activeEntry p = true ∧ p.1.key = k ∧ m.execErr p.2.ddl = some c) ∧
      DbOp.commitTx ∉ (ensureDatabaseSchema m).2) ∧
    (m.beginErr = none → ((ensureDatabaseSchema m).2).getLast? = some DbOp.rollbackTx) := by
  refine ⟨fun hb hc hall => ?_, fun hmem => ?_, fun hb hex => ⟨?_, ?_⟩, fun hb => ?_⟩
  · rw [show ensureDatabaseSchema m =
        (match m.beginErr with
         | some e => (Except.error (SchemaErr.beginTx e), [])
         | none => ensureLoop m eventDefs [DbOp.beginTx]) from rfl, hb]
    rw [ensureLoop_allOk m hc eventDefs [DbOp.beginTx] hall]
    simp
  · rcases hbe : m.beginErr with _ | e
    · rw [show ensureDatabaseSchema m =
          (match m.beginErr with
           | some e => (Except.error (SchemaErr.beginTx e), [])
           | none => ensureLoop m eventDefs [DbOp.beginTx]) from rfl, hbe] at hmem
      rcases ensureLoop_commitTx_mem m eventDefs [DbOp.beginTx] hmem with hin | hall
      · exact absurd hin (by simp)
      · exact hall
    · rw [show ensureDatabaseSchema m =
          (match m.beginErr with
           | some e => (Except.error (SchemaErr.beginTx e), [])
           | none => ensureLoop m eventDefs [DbOp.beginTx]) from rfl, hbe] at hmem
      exact absurd hmem (by simp)
  · rw [show ensureDatabaseSchema m =
        (match m.beginErr with
         | some e => (Except.error (SchemaErr.beginTx e), [])
         | none => ensureLoop m eventDefs [DbOp.beginTx]) from rfl, hb]
    exact ensureLoop_fail m eventDefs [DbOp.beginTx] hex
  · intro hmem
    rcases hex with ⟨q, hq, hqa, hqne⟩
    rw [show ensureDatabaseSchema m =
        (match m.beginErr with
         | some e => (Except.error (SchemaErr.beginTx e), [])
         | none => ensureLoop m eventDefs [DbOp.beginTx]) from rfl, hb] at hmem
    rcases ensureLoop_commitTx_mem m eventDefs [DbOp.beginTx] hmem with hin | hall
    · exact absurd hin (by simp)
    · exact hqne (hall q hq hqa)
  · rw [show ensureDatabaseSchema m =
        (match m.beginErr with
         | some e => (Except.error (SchemaErr.beginTx e), [])
         | none => ensureLoop m eventDefs [DbOp.beginTx]) from rfl, hb]
    exact ensureLoop_lastRollback m eventDefs [DbOp.beginTx]

/-- C9 check: the all-success connection model begins, executes every
registered DDL, commits and finally (deferred) rolls back the closed
transaction. -/
theorem ensureDatabaseSchema_spec_check :
    ensureDatabaseSchema dbOk =
      (Except.ok (), DbOp.beginTx ::
        ((eventDefs.filter activeEntry).map (fun p => DbOp.execDdl p.2.ddl) ++
          [DbOp.commitTx, DbOp.rollbackTx])) :=
  (ensureDatabaseSchema_spec dbOk).1 rfl rfl (fun _ _ _ => rfl)
